import Mathlib

/-!
# Resource discovery generators of terraformer

A shallow embedding of the four generators under `providers/`:

* `providers/aws/cloudformation.go`   (`CloudFormationGenerator`)
* `providers/aws/waf_regional.go`     (`WafRegionalGenerator`)
* `providers/octopusdeploy/environments.go` (`EnvironmentGenerator`)
* `providers/octopusdeploy/tag_set.go`      (`TagSetGenerator`)

Conventions of the embedding.

* A Go method `func (g *G) f(...) error` that appends to `g.Resources` becomes a
  function `... → List Resource → Option ε × List Resource`: it takes the value
  of `g.Resources` on entry and gives back the returned `error` (`none` is Go's
  `nil`) together with the value of `g.Resources` on exit.  The slice is kept on
  every path, also on the error paths, because the Go code never resets it.
* A remote call made once with a fixed input is the value it answers with,
  `Except ε Output`; a call whose input varies is a function of that input; a
  paginator is the list of the answers to its successive page requests.
* `ε` is the type of Go `error` values, `κ` the type of the configuration (AWS)
  or client handle (Octopus Deploy) that the surrounding service hands out.
* Fields that the source reads with a plain dereference (`*x.Name`) are strings:
  the embedding covers the answers in which these fields are present (on a nil
  one the Go code panics, which lies outside the embedding).  Fields that the
  source reads through `aws.StringValue` are optional strings.
-/

namespace Terraformer

/-! ## Resource descriptors -/

/-- Modelled from the spec: the Resource Descriptor that `terraform_utils`
declares (the declaration is not among the sources): `id`, `name`, `kind`,
`providerName` and `allowEmptyAttributes`. -/
structure Resource where
  id : String
  name : String
  kind : String
  providerName : String
  allowEmptyAttributes : List String
deriving DecidableEq, Repr

/-- Modelled from the spec: `terraform_utils.NewSimpleResource(ID, resourceName,
resourceType, provider, allowEmptyValues)`, which is not among the sources; it
builds the descriptor from its five arguments, in the order the callers pass
them. -/
def NewSimpleResource (ID resourceName resourceType provider : String)
    (allowEmptyValues : List String) : Resource :=
  { id := ID, name := resourceName, kind := resourceType, providerName := provider,
    allowEmptyAttributes := allowEmptyValues }

/-- The `err` of a call answering `(output, err)`: `nil` when it succeeded. -/
def errOf {ε α : Type} : Except ε α → Option ε
  | .error err => some err
  | .ok _ => none

/-! ## `providers/aws/cloudformation.go` -/

namespace aws

/-- The SDK helper `aws.StringValue`: the string a pointer points to, and the
empty string for a nil pointer. -/
def StringValue : Option String → String
  | some s => s
  | none => ""

end aws

namespace cloudformation

/-- The SDK constant `cloudformation.StackStatusDeleteComplete`. -/
def StackStatusDeleteComplete : String := "DELETE_COMPLETE"

/-- The fields of `cloudformation.StackSummary` that the generator reads. -/
structure StackSummary where
  StackName : String
  StackStatus : String
deriving DecidableEq, Repr

/-- One page of `ListStacks`. -/
structure ListStacksOutput where
  StackSummaries : List StackSummary
deriving DecidableEq, Repr

/-- The field of `cloudformation.StackSetSummary` that the generator reads. -/
structure StackSetSummary where
  StackSetName : String
deriving DecidableEq, Repr

/-- The answer of `ListStackSets`. -/
structure ListStackSetsOutput where
  Summaries : List StackSetSummary
deriving DecidableEq, Repr

/-- The fields of `cloudformation.StackInstanceSummary` that the generator
reads; all three go through `aws.StringValue`. -/
structure StackInstanceSummary where
  StackSetId : Option String
  Account : Option String
  Region : Option String
deriving DecidableEq, Repr

/-- The answer of `ListStackInstances`. -/
structure ListStackInstancesOutput where
  Summaries : List StackInstanceSummary
deriving DecidableEq, Repr

/-- What the CloudFormation service answers to the client `svc`:
`ListStacks` holds the answers to the paginator's successive page requests (the
paginator stops at the first failed request or when the list is exhausted),
`ListStackSets` the answer to the single stack-set listing, and
`ListStackInstances` the answer to the instance listing of the stack set
named in the request. -/
structure Client (ε : Type) where
  ListStacks : List (Except ε ListStacksOutput)
  ListStackSets : Except ε ListStackSetsOutput
  ListStackInstances : String → Except ε ListStackInstancesOutput

end cloudformation

/-- The package variable `cloudFormationAllowEmptyValues`
(cloudformation.go, line 24). -/
def cloudFormationAllowEmptyValues : List String := ["tags."]

namespace CloudFormationGenerator

open cloudformation

/-- The body of the inner loop over one page (cloudformation.go, lines 38-49):
a summary whose status is `DELETE_COMPLETE` is skipped, every other one
appends a descriptor. -/
def appendStackSummaries (Resources : List Resource) (StackSummaries : List StackSummary) :
    List Resource :=
  StackSummaries.foldl
    (fun Resources stackSummary =>
      if stackSummary.StackStatus = StackStatusDeleteComplete then
        Resources
      else
        Resources ++ [NewSimpleResource stackSummary.StackName stackSummary.StackName
          "aws_cloudformation_stack" "aws" cloudFormationAllowEmptyValues])
    Resources

/-- The paginated stack listing (cloudformation.go, lines 36-53): `p.Next`
requests page after page; a failed request ends the loop and is what `p.Err()`
then reports; running out of pages ends it with no error. -/
def listStacks {ε : Type} :
    List (Except ε ListStacksOutput) → List Resource → Option ε × List Resource
  | [], Resources => (none, Resources)
  | .error err :: _, Resources => (some err, Resources)
  | .ok page :: p, Resources =>
    listStacks p (appendStackSummaries Resources page.StackSummaries)

/-- The composite id of a stack-set instance (cloudformation.go, line 74). -/
def stackSetInstanceId (stackSetI : StackInstanceSummary) : String :=
  aws.StringValue stackSetI.StackSetId ++ "," ++ aws.StringValue stackSetI.Account ++ ","
    ++ aws.StringValue stackSetI.Region

/-- The loop over the instances of one stack set (cloudformation.go,
lines 73-83). -/
def appendStackSetInstances (Resources : List Resource)
    (Summaries : List StackInstanceSummary) : List Resource :=
  Summaries.foldl
    (fun Resources stackSetI =>
      let id := stackSetInstanceId stackSetI
      Resources ++ [NewSimpleResource id id "aws_cloudformation_stack_set_instance" "aws"
        cloudFormationAllowEmptyValues])
    Resources

/-- The loop over the stack sets (cloudformation.go, lines 58-84): the
descriptor of the set is appended, then its instances are listed; a failed
instance listing returns at once. -/
def rangeStackSets {ε : Type} (svc : Client ε) :
    List StackSetSummary → List Resource → Option ε × List Resource
  | [], Resources => (none, Resources)
  | stackSetSummary :: rest, Resources =>
    let Resources := Resources ++ [NewSimpleResource stackSetSummary.StackSetName
      stackSetSummary.StackSetName "aws_cloudformation_stack_set" "aws"
      cloudFormationAllowEmptyValues]
    match svc.ListStackInstances stackSetSummary.StackSetName with
    | .error err => (some err, Resources)
    | .ok stackSetInstances =>
      rangeStackSets svc rest (appendStackSetInstances Resources stackSetInstances.Summaries)

/-- The stack-set step (cloudformation.go, lines 54-86): the stack sets are
listed, then `rangeStackSets` walks them. -/
def listStackSets {ε : Type} (svc : Client ε) (Resources : List Resource) :
    Option ε × List Resource :=
  match svc.ListStackSets with
  | .error err => (some err, Resources)
  | .ok stackSets => rangeStackSets svc stackSets.Summaries Resources

/-- `CloudFormationGenerator.InitResources` (cloudformation.go, lines 30-87).
`generateConfig` is the answer of `g.generateConfig()`, `New` the SDK
constructor `cloudformation.New`. -/
def InitResources {ε κ : Type} (generateConfig : Except ε κ) (New : κ → Client ε)
    (Resources : List Resource) : Option ε × List Resource :=
  match generateConfig with
  | .error e => (some e, Resources)
  | .ok config =>
    let svc := New config
    match listStacks svc.ListStacks Resources with
    | (some err, Resources) => (some err, Resources)
    | (none, Resources) => listStackSets svc Resources

end CloudFormationGenerator

/-! ## `providers/aws/waf_regional.go` -/

namespace wafregional

/-- The SDK type `wafregional.WebACLSummary`. -/
structure WebACLSummary where
  WebACLId : String
  Name : String
deriving DecidableEq, Repr

/-- The SDK type `wafregional.ByteMatchSetSummary`. -/
structure ByteMatchSetSummary where
  ByteMatchSetId : String
  Name : String
deriving DecidableEq, Repr

/-- The SDK type `wafregional.GeoMatchSetSummary`. -/
structure GeoMatchSetSummary where
  GeoMatchSetId : String
  Name : String
deriving DecidableEq, Repr

/-- The SDK type `wafregional.IPSetSummary`. -/
structure IPSetSummary where
  IPSetId : String
  Name : String
deriving DecidableEq, Repr

/-- The SDK type `wafregional.RuleSummary`. -/
structure RuleSummary where
  RuleId : String
  Name : String
deriving DecidableEq, Repr

/-- The SDK type `wafregional.RegexMatchSetSummary`. -/
structure RegexMatchSetSummary where
  RegexMatchSetId : String
  Name : String
deriving DecidableEq, Repr

/-- The SDK type `wafregional.RegexPatternSetSummary`. -/
structure RegexPatternSetSummary where
  RegexPatternSetId : String
  Name : String
deriving DecidableEq, Repr

/-- The SDK type `wafregional.RuleGroupSummary`. -/
structure RuleGroupSummary where
  RuleGroupId : String
  Name : String
deriving DecidableEq, Repr

/-- The SDK type `wafregional.SizeConstraintSetSummary`. -/
structure SizeConstraintSetSummary where
  SizeConstraintSetId : String
  Name : String
deriving DecidableEq, Repr

/-- The SDK type `wafregional.SqlInjectionMatchSetSummary`. -/
structure SqlInjectionMatchSetSummary where
  SqlInjectionMatchSetId : String
  Name : String
deriving DecidableEq, Repr

/-- The SDK type `wafregional.XssMatchSetSummary`. -/
structure XssMatchSetSummary where
  XssMatchSetId : String
  Name : String
deriving DecidableEq, Repr

/-- The answer of `ListWebACLs`. -/
structure ListWebACLsOutput where
  WebACLs : List WebACLSummary
deriving DecidableEq, Repr

/-- The answer of `ListByteMatchSets`. -/
structure ListByteMatchSetsOutput where
  ByteMatchSets : List ByteMatchSetSummary
deriving DecidableEq, Repr

/-- The answer of `ListGeoMatchSets`. -/
structure ListGeoMatchSetsOutput where
  GeoMatchSets : List GeoMatchSetSummary
deriving DecidableEq, Repr

/-- The answer of `ListIPSets`. -/
structure ListIPSetsOutput where
  IPSets : List IPSetSummary
deriving DecidableEq, Repr

/-- The answer of `ListRateBasedRules`. -/
structure ListRateBasedRulesOutput where
  Rules : List RuleSummary
deriving DecidableEq, Repr

/-- The answer of `ListRegexMatchSets`. -/
structure ListRegexMatchSetsOutput where
  RegexMatchSets : List RegexMatchSetSummary
deriving DecidableEq, Repr

/-- The answer of `ListRegexPatternSets`. -/
structure ListRegexPatternSetsOutput where
  RegexPatternSets : List RegexPatternSetSummary
deriving DecidableEq, Repr

/-- The answer of `ListRules`. -/
structure ListRulesOutput where
  Rules : List RuleSummary
deriving DecidableEq, Repr

/-- The answer of `ListRuleGroups`. -/
structure ListRuleGroupsOutput where
  RuleGroups : List RuleGroupSummary
deriving DecidableEq, Repr

/-- The answer of `ListSizeConstraintSets`. -/
structure ListSizeConstraintSetsOutput where
  SizeConstraintSets : List SizeConstraintSetSummary
deriving DecidableEq, Repr

/-- The answer of `ListSqlInjectionMatchSets`. -/
structure ListSqlInjectionMatchSetsOutput where
  SqlInjectionMatchSets : List SqlInjectionMatchSetSummary
deriving DecidableEq, Repr

/-- The answer of `ListXssMatchSets`. -/
structure ListXssMatchSetsOutput where
  XssMatchSets : List XssMatchSetSummary
deriving DecidableEq, Repr

/-- What the WAF Regional service answers to the client `svc`: one answer for
each of the twelve listing calls, each of which the generator makes at most
once and with an empty input. -/
structure Client (ε : Type) where
  ListWebACLs : Except ε ListWebACLsOutput
  ListByteMatchSets : Except ε ListByteMatchSetsOutput
  ListGeoMatchSets : Except ε ListGeoMatchSetsOutput
  ListIPSets : Except ε ListIPSetsOutput
  ListRateBasedRules : Except ε ListRateBasedRulesOutput
  ListRegexMatchSets : Except ε ListRegexMatchSetsOutput
  ListRegexPatternSets : Except ε ListRegexPatternSetsOutput
  ListRules : Except ε ListRulesOutput
  ListRuleGroups : Except ε ListRuleGroupsOutput
  ListSizeConstraintSets : Except ε ListSizeConstraintSetsOutput
  ListSqlInjectionMatchSets : Except ε ListSqlInjectionMatchSetsOutput
  ListXssMatchSets : Except ε ListXssMatchSetsOutput

end wafregional

namespace WafRegionalGenerator

open wafregional

/-- `WafRegionalGenerator.loadWebACL` (waf_regional.go, lines 75-89).
`wafAllowEmptyValues` is a package variable declared outside the sources. -/
def loadWebACL {ε : Type} (wafAllowEmptyValues : List String) (svc : Client ε)
    (Resources : List Resource) : Option ε × List Resource :=
  match svc.ListWebACLs with
  | .error err => (some err, Resources)
  | .ok output =>
    (none, output.WebACLs.foldl
      (fun Resources acl =>
        Resources ++ [NewSimpleResource acl.WebACLId acl.Name
          "aws_wafregional_web_acl" "aws" wafAllowEmptyValues])
      Resources)

/-- `WafRegionalGenerator.loadByteMatchSet` (waf_regional.go, lines 91-105).
`wafAllowEmptyValues` is a package variable declared outside the sources. -/
def loadByteMatchSet {ε : Type} (wafAllowEmptyValues : List String) (svc : Client ε)
    (Resources : List Resource) : Option ε × List Resource :=
  match svc.ListByteMatchSets with
  | .error err => (some err, Resources)
  | .ok output =>
    (none, output.ByteMatchSets.foldl
      (fun Resources byteMatchSet =>
        Resources ++ [NewSimpleResource byteMatchSet.ByteMatchSetId byteMatchSet.Name
          "aws_wafregional_byte_match_set" "aws" wafAllowEmptyValues])
      Resources)

/-- `WafRegionalGenerator.loadGeoMatchSet` (waf_regional.go, lines 107-121).
`wafAllowEmptyValues` is a package variable declared outside the sources. -/
def loadGeoMatchSet {ε : Type} (wafAllowEmptyValues : List String) (svc : Client ε)
    (Resources : List Resource) : Option ε × List Resource :=
  match svc.ListGeoMatchSets with
  | .error err => (some err, Resources)
  | .ok output =>
    (none, output.GeoMatchSets.foldl
      (fun Resources matchSet =>
        Resources ++ [NewSimpleResource matchSet.GeoMatchSetId matchSet.Name
          "aws_wafregional_geo_match_set" "aws" wafAllowEmptyValues])
      Resources)

/-- `WafRegionalGenerator.loadIPSet` (waf_regional.go, lines 123-137).
`wafAllowEmptyValues` is a package variable declared outside the sources. -/
def loadIPSet {ε : Type} (wafAllowEmptyValues : List String) (svc : Client ε)
    (Resources : List Resource) : Option ε × List Resource :=
  match svc.ListIPSets with
  | .error err => (some err, Resources)
  | .ok output =>
    (none, output.IPSets.foldl
      (fun Resources IPSet =>
        Resources ++ [NewSimpleResource IPSet.IPSetId IPSet.Name
          "aws_wafregional_ipset" "aws" wafAllowEmptyValues])
      Resources)

/-- `WafRegionalGenerator.loadRateBasedRules` (waf_regional.go, lines 139-153).
`wafAllowEmptyValues` is a package variable declared outside the sources. -/
def loadRateBasedRules {ε : Type} (wafAllowEmptyValues : List String) (svc : Client ε)
    (Resources : List Resource) : Option ε × List Resource :=
  match svc.ListRateBasedRules with
  | .error err => (some err, Resources)
  | .ok output =>
    (none, output.Rules.foldl
      (fun Resources rule =>
        Resources ++ [NewSimpleResource rule.RuleId rule.Name
          "aws_wafregional_rate_based_rule" "aws" wafAllowEmptyValues])
      Resources)

/-- `WafRegionalGenerator.loadRegexMatchSets` (waf_regional.go, lines 155-169).
`wafAllowEmptyValues` is a package variable declared outside the sources. -/
def loadRegexMatchSets {ε : Type} (wafAllowEmptyValues : List String) (svc : Client ε)
    (Resources : List Resource) : Option ε × List Resource :=
  match svc.ListRegexMatchSets with
  | .error err => (some err, Resources)
  | .ok output =>
    (none, output.RegexMatchSets.foldl
      (fun Resources regexMatchSet =>
        Resources ++ [NewSimpleResource regexMatchSet.RegexMatchSetId regexMatchSet.Name
          "aws_wafregional_regex_match_set" "aws" wafAllowEmptyValues])
      Resources)

/-- `WafRegionalGenerator.loadRegexPatternSets` (waf_regional.go, lines 171-185).
`wafAllowEmptyValues` is a package variable declared outside the sources. -/
def loadRegexPatternSets {ε : Type} (wafAllowEmptyValues : List String) (svc : Client ε)
    (Resources : List Resource) : Option ε × List Resource :=
  match svc.ListRegexPatternSets with
  | .error err => (some err, Resources)
  | .ok output =>
    (none, output.RegexPatternSets.foldl
      (fun Resources regexPatternSet =>
        Resources ++ [NewSimpleResource regexPatternSet.RegexPatternSetId regexPatternSet.Name
          "aws_wafregional_regex_pattern_set" "aws" wafAllowEmptyValues])
      Resources)

/-- `WafRegionalGenerator.loadWafRules` (waf_regional.go, lines 187-201).
`wafAllowEmptyValues` is a package variable declared outside the sources. -/
def loadWafRules {ε : Type} (wafAllowEmptyValues : List String) (svc : Client ε)
    (Resources : List Resource) : Option ε × List Resource :=
  match svc.ListRules with
  | .error err => (some err, Resources)
  | .ok output =>
    (none, output.Rules.foldl
      (fun Resources rule =>
        Resources ++ [NewSimpleResource rule.RuleId rule.Name
          "aws_wafregional_rule" "aws" wafAllowEmptyValues])
      Resources)

/-- `WafRegionalGenerator.loadWafRuleGroups` (waf_regional.go, lines 203-217).
`wafAllowEmptyValues` is a package variable declared outside the sources. -/
def loadWafRuleGroups {ε : Type} (wafAllowEmptyValues : List String) (svc : Client ε)
    (Resources : List Resource) : Option ε × List Resource :=
  match svc.ListRuleGroups with
  | .error err => (some err, Resources)
  | .ok output =>
    (none, output.RuleGroups.foldl
      (fun Resources ruleGroup =>
        Resources ++ [NewSimpleResource ruleGroup.RuleGroupId ruleGroup.Name
          "aws_wafregional_rule_group" "aws" wafAllowEmptyValues])
      Resources)

/-- `WafRegionalGenerator.loadSizeConstraintSets` (waf_regional.go, lines 219-233).
`wafAllowEmptyValues` is a package variable declared outside the sources. -/
def loadSizeConstraintSets {ε : Type} (wafAllowEmptyValues : List String) (svc : Client ε)
    (Resources : List Resource) : Option ε × List Resource :=
  match svc.ListSizeConstraintSets with
  | .error err => (some err, Resources)
  | .ok output =>
    (none, output.SizeConstraintSets.foldl
      (fun Resources sizeConstraintSet =>
        Resources ++ [NewSimpleResource sizeConstraintSet.SizeConstraintSetId sizeConstraintSet.Name
          "aws_wafregional_size_constraint_set" "aws" wafAllowEmptyValues])
      Resources)

/-- `WafRegionalGenerator.loadSqlInjectionMatchSets` (waf_regional.go, lines 235-249).
`wafAllowEmptyValues` is a package variable declared outside the sources. -/
def loadSqlInjectionMatchSets {ε : Type} (wafAllowEmptyValues : List String) (svc : Client ε)
    (Resources : List Resource) : Option ε × List Resource :=
  match svc.ListSqlInjectionMatchSets with
  | .error err => (some err, Resources)
  | .ok output =>
    (none, output.SqlInjectionMatchSets.foldl
      (fun Resources sqlInjectionMatchSet =>
        Resources ++ [NewSimpleResource sqlInjectionMatchSet.SqlInjectionMatchSetId
          sqlInjectionMatchSet.Name
          "aws_wafregional_sql_injection_match_set" "aws" wafAllowEmptyValues])
      Resources)

/-- `WafRegionalGenerator.loadXssMatchSet` (waf_regional.go, lines 251-265).
`wafAllowEmptyValues` is a package variable declared outside the sources. -/
def loadXssMatchSet {ε : Type} (wafAllowEmptyValues : List String) (svc : Client ε)
    (Resources : List Resource) : Option ε × List Resource :=
  match svc.ListXssMatchSets with
  | .error err => (some err, Resources)
  | .ok output =>
    (none, output.XssMatchSets.foldl
      (fun Resources xssMatchSet =>
        Resources ++ [NewSimpleResource xssMatchSet.XssMatchSetId xssMatchSet.Name
          "aws_wafregional_xss_match_set" "aws" wafAllowEmptyValues])
      Resources)

/-- `WafRegionalGenerator.InitResources` (waf_regional.go, lines 27-73).
`generateConfig` is the answer of `g.generateConfig()`, `New` the SDK
constructor `wafregional.New`. -/
def InitResources {ε κ : Type} (generateConfig : Except ε κ) (New : κ → Client ε)
    (wafAllowEmptyValues : List String) (Resources : List Resource) :
    Option ε × List Resource :=
  match generateConfig with
  | .error e => (some e, Resources)
  | .ok config =>
    let svc := New config
    match loadWebACL wafAllowEmptyValues svc Resources with
    | (some err, Resources) => (some err, Resources)
    | (none, Resources) =>
    match loadByteMatchSet wafAllowEmptyValues svc Resources with
    | (some err, Resources) => (some err, Resources)
    | (none, Resources) =>
    match loadGeoMatchSet wafAllowEmptyValues svc Resources with
    | (some err, Resources) => (some err, Resources)
    | (none, Resources) =>
    match loadIPSet wafAllowEmptyValues svc Resources with
    | (some err, Resources) => (some err, Resources)
    | (none, Resources) =>
    match loadRateBasedRules wafAllowEmptyValues svc Resources with
    | (some err, Resources) => (some err, Resources)
    | (none, Resources) =>
    match loadRegexMatchSets wafAllowEmptyValues svc Resources with
    | (some err, Resources) => (some err, Resources)
    | (none, Resources) =>
    match loadRegexPatternSets wafAllowEmptyValues svc Resources with
    | (some err, Resources) => (some err, Resources)
    | (none, Resources) =>
    match loadWafRules wafAllowEmptyValues svc Resources with
    | (some err, Resources) => (some err, Resources)
    | (none, Resources) =>
    match loadWafRuleGroups wafAllowEmptyValues svc Resources with
    | (some err, Resources) => (some err, Resources)
    | (none, Resources) =>
    match loadSizeConstraintSets wafAllowEmptyValues svc Resources with
    | (some err, Resources) => (some err, Resources)
    | (none, Resources) =>
    match loadSqlInjectionMatchSets wafAllowEmptyValues svc Resources with
    | (some err, Resources) => (some err, Resources)
    | (none, Resources) =>
    match loadXssMatchSet wafAllowEmptyValues svc Resources with
    | (some err, Resources) => (some err, Resources)
    | (none, Resources) => (none, Resources)

end WafRegionalGenerator

/-! ## `providers/octopusdeploy` -/

namespace octopusdeploy

/-- The fields of the library type `octopusdeploy.Environment` that the
generator reads; both are Go strings, so `fmt.Sprintf("%s", x)` is `x`. -/
structure Environment where
  ID : String
  Name : String
deriving DecidableEq, Repr

/-- The fields of the library type `octopusdeploy.TagSet` that the generator
reads; both are Go strings, so `fmt.Sprintf("%s", x)` is `x`. -/
structure TagSet where
  ID : String
  Name : String
deriving DecidableEq, Repr

end octopusdeploy

/-- The loop `for _, f := range funcs` of the two Octopus Deploy generators
(environments.go and tag_set.go, lines 24-31): the functions run in order and
the first error is returned at once. -/
def rangeFuncs {ε γ : Type} (client : γ) :
    List (γ → List Resource → Option ε × List Resource) → List Resource →
      Option ε × List Resource
  | [], Resources => (none, Resources)
  | f :: funcs, Resources =>
    match f client Resources with
    | (some err, Resources) => (some err, Resources)
    | (none, Resources) => rangeFuncs client funcs Resources

namespace EnvironmentGenerator

/-- `EnvironmentGenerator.createEnvironmentResources` (environments.go,
lines 34-51).  `ProviderName` is the field `g.ProviderName`, `GetAll` the
library call `client.Environment.GetAll()` as a function of the client. -/
def createEnvironmentResources {ε κ : Type} (ProviderName : String)
    (GetAll : κ → Except ε (List octopusdeploy.Environment)) (client : κ)
    (Resources : List Resource) : Option ε × List Resource :=
  match GetAll client with
  | .error err => (some err, Resources)
  | .ok tagSets =>
    (none, tagSets.foldl
      (fun Resources tagSet =>
        Resources ++ [NewSimpleResource tagSet.ID tagSet.Name
          "octopusdeploy_environment" ProviderName []])
      Resources)

/-- `EnvironmentGenerator.InitResources` (environments.go, lines 14-32).
`Client` is the answer of `g.Client()`. -/
def InitResources {ε κ : Type} (ProviderName : String) (Client : Except ε κ)
    (GetAll : κ → Except ε (List octopusdeploy.Environment))
    (Resources : List Resource) : Option ε × List Resource :=
  match Client with
  | .error err => (some err, Resources)
  | .ok client =>
    let funcs := [createEnvironmentResources ProviderName GetAll]
    rangeFuncs client funcs Resources

end EnvironmentGenerator

namespace TagSetGenerator

/-- `TagSetGenerator.createTagSetResources` (tag_set.go, lines 34-51).
`ProviderName` is the field `g.ProviderName`, `GetAll` the library call
`client.TagSet.GetAll()` as a function of the client. -/
def createTagSetResources {ε κ : Type} (ProviderName : String)
    (GetAll : κ → Except ε (List octopusdeploy.TagSet)) (client : κ)
    (Resources : List Resource) : Option ε × List Resource :=
  match GetAll client with
  | .error err => (some err, Resources)
  | .ok ressources =>
    (none, ressources.foldl
      (fun Resources ressource =>
        Resources ++ [NewSimpleResource ressource.ID ressource.Name
          "octopusdeploy_tag_set" ProviderName []])
      Resources)

/-- `TagSetGenerator.InitResources` (tag_set.go, lines 14-32).  `Client` is the
answer of `g.Client()`. -/
def InitResources {ε κ : Type} (ProviderName : String) (Client : Except ε κ)
    (GetAll : κ → Except ε (List octopusdeploy.TagSet))
    (Resources : List Resource) : Option ε × List Resource :=
  match Client with
  | .error err => (some err, Resources)
  | .ok client =>
    let funcs := [createTagSetResources ProviderName GetAll]
    rangeFuncs client funcs Resources

end TagSetGenerator

/-! ## Vocabulary of the statements -/

/-- The items of a successful listing, and none for a failed one. -/
def itemsOf {ε α : Type} : Except ε (List α) → List α
  | .error _ => []
  | .ok items => items

namespace WafRegionalGenerator

open wafregional

/-- The twelve steps of `WafRegionalGenerator.InitResources`, numbered from 0
in the order in which it runs them (waf_regional.go, lines 34-70). -/
def step {ε : Type} (k : Fin 12) :
    List String → Client ε → List Resource → Option ε × List Resource :=
  match k.val with
  | 0 => loadWebACL
  | 1 => loadByteMatchSet
  | 2 => loadGeoMatchSet
  | 3 => loadIPSet
  | 4 => loadRateBasedRules
  | 5 => loadRegexMatchSets
  | 6 => loadRegexPatternSets
  | 7 => loadWafRules
  | 8 => loadWafRuleGroups
  | 9 => loadSizeConstraintSets
  | 10 => loadSqlInjectionMatchSets
  | _ => loadXssMatchSet

/-- The resource type that step `k` gives to its descriptors. -/
def kind (k : Fin 12) : String :=
  match k.val with
  | 0 => "aws_wafregional_web_acl"
  | 1 => "aws_wafregional_byte_match_set"
  | 2 => "aws_wafregional_geo_match_set"
  | 3 => "aws_wafregional_ipset"
  | 4 => "aws_wafregional_rate_based_rule"
  | 5 => "aws_wafregional_regex_match_set"
  | 6 => "aws_wafregional_regex_pattern_set"
  | 7 => "aws_wafregional_rule"
  | 8 => "aws_wafregional_rule_group"
  | 9 => "aws_wafregional_size_constraint_set"
  | 10 => "aws_wafregional_sql_injection_match_set"
  | _ => "aws_wafregional_xss_match_set"

/-- The answer to the listing call of step `k`, each returned item reduced to
the two fields the step reads: its id field and its `Name`. -/
def listing {ε : Type} (svc : Client ε) (k : Fin 12) : Except ε (List (String × String)) :=
  match k.val with
  | 0 =>
    svc.ListWebACLs.map fun output =>
      output.WebACLs.map fun acl => (acl.WebACLId, acl.Name)
  | 1 =>
    svc.ListByteMatchSets.map fun output =>
      output.ByteMatchSets.map fun byteMatchSet => (byteMatchSet.ByteMatchSetId, byteMatchSet.Name)
  | 2 =>
    svc.ListGeoMatchSets.map fun output =>
      output.GeoMatchSets.map fun matchSet => (matchSet.GeoMatchSetId, matchSet.Name)
  | 3 =>
    svc.ListIPSets.map fun output =>
      output.IPSets.map fun IPSet => (IPSet.IPSetId, IPSet.Name)
  | 4 =>
    svc.ListRateBasedRules.map fun output =>
      output.Rules.map fun rule => (rule.RuleId, rule.Name)
  | 5 =>
    svc.ListRegexMatchSets.map fun output =>
      output.RegexMatchSets.map fun regexMatchSet => (regexMatchSet.RegexMatchSetId, regexMatchSet.Name)
  | 6 =>
    svc.ListRegexPatternSets.map fun output =>
      output.RegexPatternSets.map fun regexPatternSet => (regexPatternSet.RegexPatternSetId, regexPatternSet.Name)
  | 7 =>
    svc.ListRules.map fun output =>
      output.Rules.map fun rule => (rule.RuleId, rule.Name)
  | 8 =>
    svc.ListRuleGroups.map fun output =>
      output.RuleGroups.map fun ruleGroup => (ruleGroup.RuleGroupId, ruleGroup.Name)
  | 9 =>
    svc.ListSizeConstraintSets.map fun output =>
      output.SizeConstraintSets.map fun sizeConstraintSet => (sizeConstraintSet.SizeConstraintSetId, sizeConstraintSet.Name)
  | 10 =>
    svc.ListSqlInjectionMatchSets.map fun output =>
      output.SqlInjectionMatchSets.map fun sqlInjectionMatchSet => (sqlInjectionMatchSet.SqlInjectionMatchSetId, sqlInjectionMatchSet.Name)
  | _ =>
    svc.ListXssMatchSets.map fun output =>
      output.XssMatchSets.map fun xssMatchSet => (xssMatchSet.XssMatchSetId, xssMatchSet.Name)

/-- The descriptor that step `k` builds for an item with the given id and
name. -/
def descriptor (wafAllowEmptyValues : List String) (k : Fin 12) (item : String × String) :
    Resource :=
  NewSimpleResource item.1 item.2 (kind k) "aws" wafAllowEmptyValues

/-- The descriptors of the items that the listing calls of steps `0, ..., n-1`
return, in step order and, within a step, in the order of the answer. -/
def emittedBefore {ε : Type} (wafAllowEmptyValues : List String) (svc : Client ε) (n : Nat) :
    List Resource :=
  ((List.finRange 12).filter fun j => j.val < n).flatMap fun j =>
    (itemsOf (listing svc j)).map (descriptor wafAllowEmptyValues j)

end WafRegionalGenerator

namespace CloudFormationGenerator

open cloudformation

/-- The instance summaries returned by the instance-listing calls that the
stack-set loop makes, in call order: the loop lists the instances of each
stack set in turn and makes no further call after one has failed. -/
def instancesListed {ε : Type} (svc : Client ε) :
    List StackSetSummary → List StackInstanceSummary
  | [] => []
  | stackSetSummary :: rest =>
    match svc.ListStackInstances stackSetSummary.StackSetName with
    | .error _ => []
    | .ok stackSetInstances => stackSetInstances.Summaries ++ instancesListed svc rest

/-- The descriptor appended for a stack summary (lines 42-48). -/
def stackDescriptor (stackSummary : StackSummary) : Resource :=
  NewSimpleResource stackSummary.StackName stackSummary.StackName
    "aws_cloudformation_stack" "aws" cloudFormationAllowEmptyValues

/-- The descriptor appended for a stack-set summary (lines 59-65). -/
def stackSetDescriptor (stackSetSummary : StackSetSummary) : Resource :=
  NewSimpleResource stackSetSummary.StackSetName stackSetSummary.StackSetName
    "aws_cloudformation_stack_set" "aws" cloudFormationAllowEmptyValues

/-- The descriptor appended for a stack-set instance summary (lines 74-82). -/
def stackSetInstanceDescriptor (stackSetI : StackInstanceSummary) : Resource :=
  NewSimpleResource (stackSetInstanceId stackSetI) (stackSetInstanceId stackSetI)
    "aws_cloudformation_stack_set_instance" "aws" cloudFormationAllowEmptyValues

/-- The descriptors of the stack summaries of the given pages, page after page,
the summaries in state `DELETE_COMPLETE` left out. -/
def stackDescriptors (pages : List ListStacksOutput) : List Resource :=
  ((pages.flatMap fun page => page.StackSummaries).filter
    fun stackSummary => decide (stackSummary.StackStatus ≠ StackStatusDeleteComplete)).map
    stackDescriptor

end CloudFormationGenerator

/-! ## Sample responses -/

namespace Sample

/-- WAF Regional answers in which the web-ACL listing returns five items, the
byte-match-set listing fails, and the geo-match-set listing would return one
item. -/
def wafSecondFails : wafregional.Client String :=
  { ListWebACLs := .ok ⟨[⟨"acl-1", "one"⟩, ⟨"acl-2", "two"⟩, ⟨"acl-3", "three"⟩,
      ⟨"acl-4", "four"⟩, ⟨"acl-5", "five"⟩]⟩
    ListByteMatchSets := .error "throttled"
    ListGeoMatchSets := .ok ⟨[⟨"geo-1", "geo"⟩]⟩
    ListIPSets := .ok ⟨[]⟩
    ListRateBasedRules := .ok ⟨[]⟩
    ListRegexMatchSets := .ok ⟨[]⟩
    ListRegexPatternSets := .ok ⟨[]⟩
    ListRules := .ok ⟨[]⟩
    ListRuleGroups := .ok ⟨[]⟩
    ListSizeConstraintSets := .ok ⟨[]⟩
    ListSqlInjectionMatchSets := .ok ⟨[]⟩
    ListXssMatchSets := .ok ⟨[]⟩ }

/-- The same answers as `wafSecondFails` up to the failing listing, and
different ones after it. -/
def wafSecondFailsOther : wafregional.Client String :=
  { wafSecondFails with
    ListGeoMatchSets := .error "unreachable"
    ListIPSets := .ok ⟨[⟨"ip-1", "office"⟩]⟩ }

/-- WAF Regional answers in which every listing succeeds: two web ACLs with
the same id, one rule, one XSS match set, and nothing else. -/
def wafAllSucceed : wafregional.Client String :=
  { ListWebACLs := .ok ⟨[⟨"acl-1", "one"⟩, ⟨"acl-1", "again"⟩]⟩
    ListByteMatchSets := .ok ⟨[]⟩
    ListGeoMatchSets := .ok ⟨[]⟩
    ListIPSets := .ok ⟨[]⟩
    ListRateBasedRules := .ok ⟨[]⟩
    ListRegexMatchSets := .ok ⟨[]⟩
    ListRegexPatternSets := .ok ⟨[]⟩
    ListRules := .ok ⟨[⟨"rule-1", "block"⟩]⟩
    ListRuleGroups := .ok ⟨[]⟩
    ListSizeConstraintSets := .ok ⟨[]⟩
    ListSqlInjectionMatchSets := .ok ⟨[]⟩
    ListXssMatchSets := .ok ⟨[⟨"xss-1", "xss"⟩]⟩ }

/-- CloudFormation answers in which the first page of stacks holds one active
stack and the request for the second page fails. -/
def cfSecondPageFails : cloudformation.Client String :=
  { ListStacks := [.ok ⟨[⟨"live", "CREATE_COMPLETE"⟩]⟩, .error "page 2 failed"]
    ListStackSets := .ok ⟨[]⟩
    ListStackInstances := fun _ => .ok ⟨[]⟩ }

/-- CloudFormation answers with one page holding a deleted and an active
stack, and one stack set with two instances. -/
def cfOneStackSet : cloudformation.Client String :=
  { ListStacks := [.ok ⟨[⟨"gone", "DELETE_COMPLETE"⟩, ⟨"live", "CREATE_COMPLETE"⟩]⟩]
    ListStackSets := .ok ⟨[⟨"parent"⟩]⟩
    ListStackInstances := fun _ =>
      .ok ⟨[⟨some "s1", some "111", some "us-east-1"⟩,
        ⟨some "s1", some "222", some "us-west-2"⟩]⟩ }

/-- CloudFormation answers with two stack sets, where the instance listing
of the first succeeds and that of the second fails. -/
def cfSecondSetFails : cloudformation.Client String :=
  { ListStacks := [.ok ⟨[⟨"live", "CREATE_COMPLETE"⟩]⟩]
    ListStackSets := .ok ⟨[⟨"first"⟩, ⟨"second"⟩]⟩
    ListStackInstances := fun StackSetName =>
      if StackSetName = "first" then .ok ⟨[⟨some "s1", some "111", none⟩]⟩
      else .error "denied" }

end Sample

/-! ## Lemmas on the loops -/

theorem foldl_append_singleton {α : Type} (f : α → Resource) (xs : List α)
    (R : List Resource) :
    xs.foldl (fun Resources x => Resources ++ [f x]) R = R ++ xs.map f := by
  induction xs generalizing R with
  | nil => simp
  | cons x xs ih => simp [ih]

theorem itemsOf_eq_nil {ε α : Type} {r : Except ε (List α)} {e : ε}
    (h : errOf r = some e) : itemsOf r = [] := by
  cases r <;> simp_all [errOf, itemsOf]

theorem errOf_eq_none_iff {ε α : Type} (r : Except ε α) :
    errOf r = none ↔ ∃ a, r = .ok a := by
  cases r <;> simp [errOf]

theorem errOf_eq_some_iff {ε α : Type} (r : Except ε α) (e : ε) :
    errOf r = some e ↔ r = .error e := by
  cases r <;> simp [errOf]

theorem rangeFuncs_frame {ε γ : Type} (c : γ)
    (fs : List (γ → List Resource → Option ε × List Resource))
    (h : ∀ f ∈ fs, ∀ R, f c R = ((f c []).1, R ++ (f c []).2)) (R : List Resource) :
    rangeFuncs c fs R = ((rangeFuncs c fs []).1, R ++ (rangeFuncs c fs []).2) := by
  induction fs generalizing R with
  | nil => simp [rangeFuncs]
  | cons f fs ih =>
    have hf := h f (List.mem_cons_self _ _)
    have ih2 := fun R => ih (fun g hg => h g (List.mem_cons_of_mem _ hg)) R
    simp only [rangeFuncs]
    rw [hf R]
    rcases hfe : f c [] with ⟨o, A⟩
    cases o with
    | some e => simp
    | none =>
      simp only
      rw [ih2 (R ++ A), ih2 A]
      simp [List.append_assoc]

namespace WafRegionalGenerator

open wafregional

theorem step_eq {ε : Type} (k : Fin 12) (allow : List String) (svc : Client ε)
    (R : List Resource) :
    step k allow svc R =
      (errOf (listing svc k), R ++ (itemsOf (listing svc k)).map (descriptor allow k)) := by
  fin_cases k <;>
    dsimp only [step, listing, loadWebACL, loadByteMatchSet, loadGeoMatchSet, loadIPSet,
      loadRateBasedRules, loadRegexMatchSets, loadRegexPatternSets, loadWafRules,
      loadWafRuleGroups, loadSizeConstraintSets, loadSqlInjectionMatchSets, loadXssMatchSet] <;>
    split <;>
    simp [*, errOf, itemsOf, Except.map, foldl_append_singleton, descriptor, kind]

theorem waf_InitResources_eq_rangeFuncs {ε κ : Type} (config : κ) (New : κ → Client ε)
    (allow : List String) (R : List Resource) :
    InitResources (.ok config) New allow R =
      rangeFuncs (New config)
        [step ⟨0, by decide⟩ allow, step ⟨1, by decide⟩ allow, step ⟨2, by decide⟩ allow,
          step ⟨3, by decide⟩ allow, step ⟨4, by decide⟩ allow, step ⟨5, by decide⟩ allow,
          step ⟨6, by decide⟩ allow, step ⟨7, by decide⟩ allow, step ⟨8, by decide⟩ allow,
          step ⟨9, by decide⟩ allow, step ⟨10, by decide⟩ allow,
          step ⟨11, by decide⟩ allow] R := rfl

theorem waf_InitResources_fail_at {ε κ : Type} (config : κ) (New : κ → Client ε)
    (allow : List String) (R : List Resource) (k : Fin 12) (e : ε)
    (hprev : ∀ j : Fin 12, j < k → errOf (listing (New config) j) = none)
    (hk : errOf (listing (New config) k) = some e) :
    InitResources (.ok config) New allow R =
      (some e, R ++ emittedBefore allow (New config) k.val) := by
  have h0 := hprev ⟨0, by decide⟩
  have h1 := hprev ⟨1, by decide⟩
  have h2 := hprev ⟨2, by decide⟩
  have h3 := hprev ⟨3, by decide⟩
  have h4 := hprev ⟨4, by decide⟩
  have h5 := hprev ⟨5, by decide⟩
  have h6 := hprev ⟨6, by decide⟩
  have h7 := hprev ⟨7, by decide⟩
  have h8 := hprev ⟨8, by decide⟩
  have h9 := hprev ⟨9, by decide⟩
  have h10 := hprev ⟨10, by decide⟩
  clear hprev
  rw [waf_InitResources_eq_rangeFuncs]
  simp only [rangeFuncs, step_eq]
  have hnil := itemsOf_eq_nil hk
  fin_cases k <;> simp at hk hnil h0 h1 h2 h3 h4 h5 h6 h7 h8 h9 h10 <;>
    simp [*, emittedBefore, List.finRange, List.flatMap] <;> rfl

theorem waf_InitResources_all_ok {ε κ : Type} (config : κ) (New : κ → Client ε)
    (allow : List String) (R : List Resource)
    (hall : ∀ j : Fin 12, errOf (listing (New config) j) = none) :
    InitResources (.ok config) New allow R =
      (none, R ++ emittedBefore allow (New config) 12) := by
  have h0 := hall ⟨0, by decide⟩
  have h1 := hall ⟨1, by decide⟩
  have h2 := hall ⟨2, by decide⟩
  have h3 := hall ⟨3, by decide⟩
  have h4 := hall ⟨4, by decide⟩
  have h5 := hall ⟨5, by decide⟩
  have h6 := hall ⟨6, by decide⟩
  have h7 := hall ⟨7, by decide⟩
  have h8 := hall ⟨8, by decide⟩
  have h9 := hall ⟨9, by decide⟩
  have h10 := hall ⟨10, by decide⟩
  have h11 := hall ⟨11, by decide⟩
  clear hall
  rw [waf_InitResources_eq_rangeFuncs]
  simp only [rangeFuncs, step_eq]
  simp at h0 h1 h2 h3 h4 h5 h6 h7 h8 h9 h10 h11
  simp [*, emittedBefore, List.finRange, List.flatMap]
  rfl

theorem emittedBefore_congr {ε : Type} (allow : List String) (svc svc' : Client ε) (n : Nat)
    (h : ∀ j : Fin 12, j.val < n → listing svc' j = listing svc j) :
    emittedBefore allow svc' n = emittedBefore allow svc n := by
  unfold emittedBefore
  apply List.flatMap_congr
  intro j hj
  rw [h j (by simpa using (List.mem_filter.1 hj).2)]

theorem waf_InitResources_frame {ε κ : Type} (generateConfig : Except ε κ) (New : κ → Client ε)
    (allow : List String) (R : List Resource) :
    InitResources generateConfig New allow R =
      ((InitResources generateConfig New allow []).1,
        R ++ (InitResources generateConfig New allow []).2) := by
  cases generateConfig with
  | error e => simp [InitResources]
  | ok config =>
    rw [waf_InitResources_eq_rangeFuncs, waf_InitResources_eq_rangeFuncs]
    apply rangeFuncs_frame
    intro f hf R
    simp only [List.mem_cons, List.mem_singleton, List.not_mem_nil, or_false] at hf
    rcases hf with h | h | h | h | h | h | h | h | h | h | h | h <;> subst h <;>
      simp [step_eq]

end WafRegionalGenerator

namespace CloudFormationGenerator

open cloudformation

theorem appendStackSummaries_eq (R : List Resource) (xs : List StackSummary) :
    appendStackSummaries R xs =
      R ++ (xs.filter fun stackSummary =>
        decide (stackSummary.StackStatus ≠ StackStatusDeleteComplete)).map stackDescriptor := by
  unfold appendStackSummaries
  induction xs generalizing R with
  | nil => simp
  | cons x xs ih =>
    simp only [List.foldl_cons]
    rw [ih]
    by_cases h : x.StackStatus = StackStatusDeleteComplete <;>
      simp [h, List.filter_cons, stackDescriptor]

theorem appendStackSetInstances_eq (R : List Resource) (xs : List StackInstanceSummary) :
    appendStackSetInstances R xs = R ++ xs.map stackSetInstanceDescriptor := by
  unfold appendStackSetInstances
  exact foldl_append_singleton stackSetInstanceDescriptor xs R

theorem stackDescriptors_cons (page : ListStacksOutput) (pages : List ListStacksOutput) :
    stackDescriptors (page :: pages) =
      (page.StackSummaries.filter fun stackSummary =>
        decide (stackSummary.StackStatus ≠ StackStatusDeleteComplete)).map stackDescriptor ++
        stackDescriptors pages := by
  simp [stackDescriptors]

theorem listStacks_ok {ε : Type} (pages : List ListStacksOutput) (R : List Resource) :
    listStacks (pages.map (Except.ok : ListStacksOutput → Except ε ListStacksOutput)) R =
      (none, R ++ stackDescriptors pages) := by
  induction pages generalizing R with
  | nil => simp [listStacks, stackDescriptors]
  | cons page pages ih =>
    simp only [List.map_cons, listStacks]
    rw [ih, appendStackSummaries_eq, stackDescriptors_cons]
    simp [List.append_assoc]

theorem listStacks_error {ε : Type} (oks : List ListStacksOutput) (e : ε)
    (rest : List (Except ε ListStacksOutput)) (R : List Resource) :
    listStacks (oks.map Except.ok ++ Except.error e :: rest) R =
      (some e, R ++ stackDescriptors oks) := by
  induction oks generalizing R with
  | nil => simp [listStacks, stackDescriptors]
  | cons page pages ih =>
    simp only [List.map_cons, List.cons_append, listStacks, List.append_eq]
    rw [ih, appendStackSummaries_eq, stackDescriptors_cons]
    simp [List.append_assoc]

/-- A list of page answers is a run of successful pages, followed either by
nothing or by a failed request and whatever would have come after it. -/
theorem pages_cases {ε : Type} (p : List (Except ε ListStacksOutput)) :
    (∃ oks : List ListStacksOutput, p = oks.map Except.ok) ∨
      ∃ (oks : List ListStacksOutput) (e : ε) (rest : List (Except ε ListStacksOutput)),
        p = oks.map Except.ok ++ Except.error e :: rest := by
  induction p with
  | nil => exact Or.inl ⟨[], rfl⟩
  | cons r p ih =>
    cases r with
    | error e => exact Or.inr ⟨[], e, p, rfl⟩
    | ok page =>
      rcases ih with ⟨oks, h⟩ | ⟨oks, e, rest, h⟩
      · exact Or.inl ⟨page :: oks, by simp [h]⟩
      · exact Or.inr ⟨page :: oks, e, rest, by simp [h]⟩

theorem listStacks_frame {ε : Type} (p : List (Except ε ListStacksOutput))
    (R : List Resource) :
    listStacks p R = ((listStacks p []).1, R ++ (listStacks p []).2) := by
  rcases pages_cases p with ⟨oks, h⟩ | ⟨oks, e, rest, h⟩ <;> subst h
  · simp [listStacks_ok]
  · simp [listStacks_error]

theorem rangeStackSets_frame {ε : Type} (svc : Client ε) (sets : List StackSetSummary)
    (R : List Resource) :
    rangeStackSets svc sets R =
      ((rangeStackSets svc sets []).1, R ++ (rangeStackSets svc sets []).2) := by
  induction sets generalizing R with
  | nil => simp [rangeStackSets]
  | cons s sets ih =>
    simp only [rangeStackSets]
    cases svc.ListStackInstances s.StackSetName with
    | error e => simp
    | ok out =>
      simp only [appendStackSetInstances_eq]
      rw [ih (R ++ _ ++ _), ih ([] ++ _ ++ _)]
      simp [List.append_assoc]

theorem listStackSets_frame {ε : Type} (svc : Client ε) (R : List Resource) :
    listStackSets svc R = ((listStackSets svc []).1, R ++ (listStackSets svc []).2) := by
  unfold listStackSets
  cases svc.ListStackSets with
  | error e => simp
  | ok out => exact rangeStackSets_frame svc out.Summaries R

theorem cf_InitResources_ok_eq {ε κ : Type} (config : κ) (New : κ → Client ε)
    (R : List Resource) :
    InitResources (.ok config) New R =
      match listStacks (New config).ListStacks R with
      | (some err, Resources) => (some err, Resources)
      | (none, Resources) => listStackSets (New config) Resources := rfl

theorem cf_InitResources_frame {ε κ : Type} (generateConfig : Except ε κ) (New : κ → Client ε)
    (R : List Resource) :
    InitResources generateConfig New R =
      ((InitResources generateConfig New []).1,
        R ++ (InitResources generateConfig New []).2) := by
  cases generateConfig with
  | error e => simp [InitResources]
  | ok config =>
    rw [cf_InitResources_ok_eq, cf_InitResources_ok_eq, listStacks_frame]
    rcases h : listStacks (New config).ListStacks [] with ⟨o, A⟩
    cases o with
    | some e => simp
    | none =>
      simp only
      rw [listStackSets_frame (New config) (R ++ A), listStackSets_frame (New config) A]
      simp [List.append_assoc]

/-- The stack-set loop when every instance listing up to the stack set `s`
succeeds and the one of `s` fails. -/
theorem rangeStackSets_error {ε : Type} (svc : Client ε)
    (pre : List StackSetSummary) (s : StackSetSummary) (post : List StackSetSummary)
    (inst : StackSetSummary → ListStackInstancesOutput) (e : ε)
    (hpre : ∀ t ∈ pre, svc.ListStackInstances t.StackSetName = .ok (inst t))
    (hs : svc.ListStackInstances s.StackSetName = .error e) (R : List Resource) :
    rangeStackSets svc (pre ++ s :: post) R =
      (some e, R ++ (pre.flatMap fun t =>
        stackSetDescriptor t :: (inst t).Summaries.map stackSetInstanceDescriptor) ++
        [stackSetDescriptor s]) := by
  induction pre generalizing R with
  | nil => simp [rangeStackSets, hs, stackSetDescriptor]
  | cons t pre ih =>
    have ht := hpre t (List.mem_cons_self _ _)
    simp only [List.cons_append, rangeStackSets, ht, appendStackSetInstances_eq, List.append_eq]
    rw [ih (fun u hu => hpre u (List.mem_cons_of_mem _ hu))]
    simp [List.append_assoc, stackSetDescriptor]

/-- The stack-set loop when every instance listing succeeds. -/
theorem rangeStackSets_ok {ε : Type} (svc : Client ε) (sets : List StackSetSummary)
    (inst : StackSetSummary → ListStackInstancesOutput)
    (hsets : ∀ t ∈ sets, svc.ListStackInstances t.StackSetName = .ok (inst t))
    (R : List Resource) :
    rangeStackSets svc sets R =
      (none, R ++ sets.flatMap fun t =>
        stackSetDescriptor t :: (inst t).Summaries.map stackSetInstanceDescriptor) := by
  induction sets generalizing R with
  | nil => simp [rangeStackSets]
  | cons t sets ih =>
    have ht := hsets t (List.mem_cons_self _ _)
    simp only [rangeStackSets, ht, appendStackSetInstances_eq]
    rw [ih (fun u hu => hsets u (List.mem_cons_of_mem _ hu))]
    simp [List.append_assoc, stackSetDescriptor]

theorem cf_InitResources_pages_ok {ε κ : Type} (config : κ) (New : κ → Client ε)
    (pages : List ListStacksOutput) (R : List Resource)
    (h : (New config).ListStacks = pages.map Except.ok) :
    InitResources (.ok config) New R =
      listStackSets (New config) (R ++ stackDescriptors pages) := by
  rw [cf_InitResources_ok_eq, h, listStacks_ok]

theorem cf_InitResources_pages_error {ε κ : Type} (config : κ) (New : κ → Client ε)
    (oks : List ListStacksOutput) (e : ε) (rest : List (Except ε ListStacksOutput))
    (R : List Resource)
    (h : (New config).ListStacks = oks.map Except.ok ++ Except.error e :: rest) :
    InitResources (.ok config) New R = (some e, R ++ stackDescriptors oks) := by
  rw [cf_InitResources_ok_eq, h, listStacks_error]

theorem listStackSets_error {ε : Type} (svc : Client ε) (e : ε) (R : List Resource)
    (h : svc.ListStackSets = .error e) : listStackSets svc R = (some e, R) := by
  simp [listStackSets, h]

theorem listStackSets_instances_error {ε : Type} (svc : Client ε)
    (pre : List StackSetSummary) (s : StackSetSummary) (post : List StackSetSummary)
    (inst : StackSetSummary → ListStackInstancesOutput) (e : ε)
    (hsets : svc.ListStackSets = .ok ⟨pre ++ s :: post⟩)
    (hpre : ∀ t ∈ pre, svc.ListStackInstances t.StackSetName = .ok (inst t))
    (hs : svc.ListStackInstances s.StackSetName = .error e) (R : List Resource) :
    listStackSets svc R =
      (some e, R ++ (pre.flatMap fun t =>
        stackSetDescriptor t :: (inst t).Summaries.map stackSetInstanceDescriptor) ++
        [stackSetDescriptor s]) := by
  simp only [listStackSets, hsets]
  exact rangeStackSets_error svc pre s post inst e hpre hs R

theorem mem_rangeStackSets {ε : Type} (svc : Client ε) (sets : List StackSetSummary)
    (d : Resource) (hd : d ∈ (rangeStackSets svc sets []).2) :
    (∃ s ∈ sets, d = stackSetDescriptor s) ∨
      ∃ s ∈ sets, ∃ out, svc.ListStackInstances s.StackSetName = .ok out ∧
        ∃ i ∈ out.Summaries, d = stackSetInstanceDescriptor i := by
  induction sets with
  | nil => simp [rangeStackSets] at hd
  | cons s sets ih =>
    simp only [rangeStackSets, List.nil_append] at hd
    cases h : svc.ListStackInstances s.StackSetName with
    | error e =>
      simp [h] at hd
      exact Or.inl ⟨s, List.mem_cons_self _ _, hd⟩
    | ok out =>
      simp only [h, appendStackSetInstances_eq] at hd
      rw [rangeStackSets_frame] at hd
      simp only [List.nil_append, List.mem_append, List.mem_singleton, List.mem_map] at hd
      rcases hd with (hd | ⟨i, hi, hdi⟩) | hd
      · exact Or.inl ⟨s, List.mem_cons_self _ _, hd⟩
      · exact Or.inr ⟨s, List.mem_cons_self _ _, out, h, i, hi, hdi.symm⟩
      · rcases ih hd with ⟨t, ht, hdt⟩ | ⟨t, ht, rest⟩
        · exact Or.inl ⟨t, List.mem_cons_of_mem _ ht, hdt⟩
        · exact Or.inr ⟨t, List.mem_cons_of_mem _ ht, rest⟩

theorem mem_listStackSets {ε : Type} (svc : Client ε) (d : Resource)
    (hd : d ∈ (listStackSets svc []).2) :
    (∃ stackSets, svc.ListStackSets = .ok stackSets ∧
        ∃ s ∈ stackSets.Summaries, d = stackSetDescriptor s) ∨
      ∃ s out, svc.ListStackInstances s = .ok out ∧
        ∃ i ∈ out.Summaries, d = stackSetInstanceDescriptor i := by
  unfold listStackSets at hd
  cases h : svc.ListStackSets with
  | error e => simp [h] at hd
  | ok stackSets =>
    simp only [h] at hd
    rcases mem_rangeStackSets svc stackSets.Summaries d hd with
      ⟨s, hs, hds⟩ | ⟨s, _, out, hout, rest⟩
    · exact Or.inl ⟨stackSets, rfl, s, hs, hds⟩
    · exact Or.inr ⟨s.StackSetName, out, hout, rest⟩

theorem mem_stackDescriptors (oks : List ListStacksOutput) (d : Resource)
    (hd : d ∈ stackDescriptors oks) :
    ∃ page ∈ oks, ∃ s ∈ page.StackSummaries,
      s.StackStatus ≠ StackStatusDeleteComplete ∧ d = stackDescriptor s := by
  simp only [stackDescriptors, List.mem_map, List.mem_filter, List.mem_flatMap,
    decide_eq_true_eq] at hd
  obtain ⟨s, ⟨⟨page, hpage, hs⟩, hne⟩, hds⟩ := hd
  exact ⟨page, hpage, s, hs, hne, hds.symm⟩

theorem mem_listStacks {ε : Type} (p : List (Except ε ListStacksOutput)) (d : Resource)
    (hd : d ∈ (listStacks p []).2) :
    ∃ page, Except.ok page ∈ p ∧ ∃ s ∈ page.StackSummaries,
      s.StackStatus ≠ StackStatusDeleteComplete ∧ d = stackDescriptor s := by
  rcases pages_cases p with ⟨oks, h⟩ | ⟨oks, e, rest, h⟩ <;> subst h
  · rw [listStacks_ok] at hd
    obtain ⟨page, hpage, rest⟩ := mem_stackDescriptors oks d (by simpa using hd)
    exact ⟨page, List.mem_map.2 ⟨page, hpage, rfl⟩, rest⟩
  · rw [listStacks_error] at hd
    obtain ⟨page, hpage, more⟩ := mem_stackDescriptors oks d (by simpa using hd)
    exact ⟨page, List.mem_append_left _ (List.mem_map.2 ⟨page, hpage, rfl⟩), more⟩

/-- The result set of a run is the initial one, then what the stack listing
appended, then what the stack-set step appended. -/
theorem cf_InitResources_ok_resources {ε κ : Type} (config : κ) (New : κ → Client ε)
    (R : List Resource) :
    ∃ rest, (InitResources (.ok config) New R).2 =
        R ++ (listStacks (New config).ListStacks []).2 ++ rest ∧
      ∀ d ∈ rest,
        (∃ stackSets, (New config).ListStackSets = .ok stackSets ∧
          ∃ s ∈ stackSets.Summaries, d = stackSetDescriptor s) ∨
        ∃ s out, (New config).ListStackInstances s = .ok out ∧
          ∃ i ∈ out.Summaries, d = stackSetInstanceDescriptor i := by
  rw [cf_InitResources_ok_eq, listStacks_frame]
  rcases h : listStacks (New config).ListStacks [] with ⟨o, A⟩
  cases o with
  | some e => exact ⟨[], by simp, by simp⟩
  | none =>
    refine ⟨(listStackSets (New config) []).2, ?_, fun d hd => mem_listStackSets _ d hd⟩
    simp only
    rw [listStackSets_frame]

/-- Among the descriptors the stack-set loop leaves behind, those of kind
`aws_cloudformation_stack_set_instance` are the descriptors of the instance
summaries that its instance listings returned. -/
theorem filter_rangeStackSets {ε : Type} (svc : Client ε) (sets : List StackSetSummary)
    (R : List Resource) :
    (rangeStackSets svc sets R).2.filter
        (fun d => decide (d.kind = "aws_cloudformation_stack_set_instance")) =
      R.filter (fun d => decide (d.kind = "aws_cloudformation_stack_set_instance")) ++
        (instancesListed svc sets).map stackSetInstanceDescriptor := by
  induction sets generalizing R with
  | nil => simp [rangeStackSets, instancesListed]
  | cons s sets ih =>
    simp only [rangeStackSets, instancesListed]
    cases h : svc.ListStackInstances s.StackSetName with
    | error e => simp [List.filter_append, NewSimpleResource]
    | ok out =>
      simp only [appendStackSetInstances_eq]
      rw [ih]
      have hinst : (out.Summaries.map stackSetInstanceDescriptor).filter
          (fun d => decide (d.kind = "aws_cloudformation_stack_set_instance")) =
          out.Summaries.map stackSetInstanceDescriptor := by
        apply List.filter_eq_self.2
        intro d hd
        simp only [List.mem_map] at hd
        obtain ⟨i, _, rfl⟩ := hd
        simp [stackSetInstanceDescriptor, NewSimpleResource]
      simp [List.filter_append, hinst, NewSimpleResource]

theorem filter_stackDescriptors (pages : List ListStacksOutput) :
    (stackDescriptors pages).filter
      (fun d => decide (d.kind = "aws_cloudformation_stack_set_instance")) = [] := by
  apply List.filter_eq_nil_iff.2
  intro d hd
  simp only [stackDescriptors, List.mem_map] at hd
  obtain ⟨s, _, rfl⟩ := hd
  simp [stackDescriptor, NewSimpleResource]

end CloudFormationGenerator

namespace EnvironmentGenerator

theorem createEnvironmentResources_eq {ε κ : Type} (ProviderName : String)
    (GetAll : κ → Except ε (List octopusdeploy.Environment)) (client : κ)
    (R : List Resource) :
    createEnvironmentResources ProviderName GetAll client R =
      (errOf (GetAll client), R ++ (itemsOf (GetAll client)).map fun tagSet =>
        NewSimpleResource tagSet.ID tagSet.Name "octopusdeploy_environment" ProviderName []) := by
  unfold createEnvironmentResources
  cases GetAll client <;> simp [errOf, itemsOf, foldl_append_singleton]

theorem env_InitResources_ok_eq {ε κ : Type} (ProviderName : String) (client : κ)
    (GetAll : κ → Except ε (List octopusdeploy.Environment)) (R : List Resource) :
    InitResources ProviderName (.ok client) GetAll R =
      (errOf (GetAll client), R ++ (itemsOf (GetAll client)).map fun tagSet =>
        NewSimpleResource tagSet.ID tagSet.Name "octopusdeploy_environment" ProviderName []) := by
  simp only [InitResources, rangeFuncs, createEnvironmentResources_eq]
  cases errOf (GetAll client) <;> rfl

theorem env_InitResources_frame {ε κ : Type} (ProviderName : String) (Client : Except ε κ)
    (GetAll : κ → Except ε (List octopusdeploy.Environment)) (R : List Resource) :
    InitResources ProviderName Client GetAll R =
      ((InitResources ProviderName Client GetAll []).1,
        R ++ (InitResources ProviderName Client GetAll []).2) := by
  cases Client with
  | error e => simp [InitResources]
  | ok client => simp [env_InitResources_ok_eq]

end EnvironmentGenerator

namespace TagSetGenerator

theorem createTagSetResources_eq {ε κ : Type} (ProviderName : String)
    (GetAll : κ → Except ε (List octopusdeploy.TagSet)) (client : κ)
    (R : List Resource) :
    createTagSetResources ProviderName GetAll client R =
      (errOf (GetAll client), R ++ (itemsOf (GetAll client)).map fun ressource =>
        NewSimpleResource ressource.ID ressource.Name "octopusdeploy_tag_set" ProviderName []) := by
  unfold createTagSetResources
  cases GetAll client <;> simp [errOf, itemsOf, foldl_append_singleton]

theorem tagSet_InitResources_ok_eq {ε κ : Type} (ProviderName : String) (client : κ)
    (GetAll : κ → Except ε (List octopusdeploy.TagSet)) (R : List Resource) :
    InitResources ProviderName (.ok client) GetAll R =
      (errOf (GetAll client), R ++ (itemsOf (GetAll client)).map fun ressource =>
        NewSimpleResource ressource.ID ressource.Name "octopusdeploy_tag_set" ProviderName []) := by
  simp only [InitResources, rangeFuncs, createTagSetResources_eq]
  cases errOf (GetAll client) <;> rfl

theorem tagSet_InitResources_frame {ε κ : Type} (ProviderName : String) (Client : Except ε κ)
    (GetAll : κ → Except ε (List octopusdeploy.TagSet)) (R : List Resource) :
    InitResources ProviderName Client GetAll R =
      ((InitResources ProviderName Client GetAll []).1,
        R ++ (InitResources ProviderName Client GetAll []).2) := by
  cases Client with
  | error e => simp [InitResources]
  | ok client => simp [tagSet_InitResources_ok_eq]

end TagSetGenerator

/-- What follows for a function on result sets that only appends, and whose
error and appended descriptors do not depend on the set it starts from. -/
theorem append_only_of_frame {ε : Type} (f : List Resource → Option ε × List Resource)
    (hf : ∀ R, f R = ((f []).1, R ++ (f []).2)) (R : List Resource) :
    R <+: (f R).2 ∧ f R = ((f []).1, R ++ (f []).2) ∧
      ((f R).1 = none → f (f R).2 = (none, R ++ (f []).2 ++ (f []).2)) := by
  refine ⟨?_, hf R, ?_⟩
  · rw [hf R]
    exact ⟨(f []).2, rfl⟩
  · intro h
    rw [hf R] at h
    simp only at h
    rw [hf (f R).2, h, hf R]

/-! ## Lemmas on the composite id -/

/-- Two lists that both split at their first occurrence of `d` are equal only
if the parts before and after it are equal. -/
theorem append_cons_inj_of_not_mem {α : Type} (d : α) :
    ∀ (x x' y y' : List α), d ∉ x → d ∉ x' → x ++ d :: y = x' ++ d :: y' →
      x = x' ∧ y = y'
  | [], [], y, y', _, _, h => by simpa using h
  | [], b :: x', y, y', _, hx', h => by
    simp only [List.nil_append, List.cons_append, List.cons.injEq] at h
    exact absurd (h.1 ▸ List.mem_cons_self _ _) hx'
  | a :: x, [], y, y', hx, _, h => by
    simp only [List.nil_append, List.cons_append, List.cons.injEq] at h
    exact absurd (h.1 ▸ List.mem_cons_self _ _) hx
  | a :: x, b :: x', y, y', hx, hx', h => by
    simp only [List.cons_append, List.cons.injEq] at h
    have ih := append_cons_inj_of_not_mem d x x' y y'
      (fun hm => hx (List.mem_cons_of_mem _ hm)) (fun hm => hx' (List.mem_cons_of_mem _ hm)) h.2
    exact ⟨by rw [h.1, ih.1], ih.2⟩

theorem stackSetInstanceId_toList (i : cloudformation.StackInstanceSummary) :
    (CloudFormationGenerator.stackSetInstanceId i).toList =
      (aws.StringValue i.StackSetId).toList ++ ',' ::
        ((aws.StringValue i.Account).toList ++ ',' :: (aws.StringValue i.Region).toList) := by
  simp [CloudFormationGenerator.stackSetInstanceId, String.toList, String.data_append]

theorem stackSetInstanceId_inj (i j : cloudformation.StackInstanceSummary)
    (hi1 : ',' ∉ (aws.StringValue i.StackSetId).toList)
    (hi2 : ',' ∉ (aws.StringValue i.Account).toList)
    (hj1 : ',' ∉ (aws.StringValue j.StackSetId).toList)
    (hj2 : ',' ∉ (aws.StringValue j.Account).toList)
    (h : CloudFormationGenerator.stackSetInstanceId i =
      CloudFormationGenerator.stackSetInstanceId j) :
    aws.StringValue i.StackSetId = aws.StringValue j.StackSetId ∧
      aws.StringValue i.Account = aws.StringValue j.Account ∧
      aws.StringValue i.Region = aws.StringValue j.Region := by
  have hl := congrArg String.toList h
  rw [stackSetInstanceId_toList, stackSetInstanceId_toList] at hl
  obtain ⟨h1, hrest⟩ := append_cons_inj_of_not_mem ',' _ _ _ _ hi1 hj1 hl
  obtain ⟨h2, h3⟩ := append_cons_inj_of_not_mem ',' _ _ _ _ hi2 hj2 hrest
  exact ⟨String.ext h1, String.ext h2, String.ext h3⟩

/-- A nil field and an empty field give the same composite id. -/
theorem stackSetInstanceId_nil_eq_empty (Account Region : Option String) :
    CloudFormationGenerator.stackSetInstanceId ⟨none, Account, Region⟩ =
      CloudFormationGenerator.stackSetInstanceId ⟨some "", Account, Region⟩ := rfl

/-! ## The claims -/

section

open WafRegionalGenerator

/-- C1 (counterexample): the web-ACL listing returns five items and the
byte-match-set listing fails; `InitResources`, started on an empty result set,
returns the error and leaves the five web-ACL descriptors in the result set. -/
theorem C1_counterexample :
    (InitResources (.ok ()) (fun _ => Sample.wafSecondFails) ["tags."] []).1 =
        some "throttled" ∧
      (InitResources (.ok ()) (fun _ => Sample.wafSecondFails) ["tags."] []).2.length = 5 ∧
      (InitResources (.ok ()) (fun _ => Sample.wafSecondFails) ["tags."] []).2 ≠ [] := by
  decide

end

/-- C1 (amended): when a listing call made by `InitResources` fails, the call
returns that error and the result set, started empty, holds the descriptors of
everything the earlier listing calls returned.  For the WAF Regional generator
these are the descriptors of the steps before the failing one; for the
CloudFormation generator the stacks of the pages fetched before the failure,
then the stack sets visited and the instances listed before the failure; the
Octopus Deploy generators make a single listing call, so their result set is
empty. -/
theorem C1_failure_keeps_earlier_descriptors {ε κ : Type} :
    (∀ (config : κ) (New : κ → wafregional.Client ε) (allow : List String) (k : Fin 12)
        (e : ε),
        (∀ j : Fin 12, j < k → errOf (WafRegionalGenerator.listing (New config) j) = none) →
        errOf (WafRegionalGenerator.listing (New config) k) = some e →
        WafRegionalGenerator.InitResources (.ok config) New allow [] =
          (some e, WafRegionalGenerator.emittedBefore allow (New config) k)) ∧
    (∀ (config : κ) (New : κ → cloudformation.Client ε)
        (oks : List cloudformation.ListStacksOutput) (e : ε)
        (rest : List (Except ε cloudformation.ListStacksOutput)),
        (New config).ListStacks = oks.map Except.ok ++ Except.error e :: rest →
        CloudFormationGenerator.InitResources (.ok config) New [] =
          (some e, CloudFormationGenerator.stackDescriptors oks)) ∧
    (∀ (config : κ) (New : κ → cloudformation.Client ε)
        (pages : List cloudformation.ListStacksOutput) (e : ε),
        (New config).ListStacks = pages.map Except.ok →
        (New config).ListStackSets = .error e →
        CloudFormationGenerator.InitResources (.ok config) New [] =
          (some e, CloudFormationGenerator.stackDescriptors pages)) ∧
    (∀ (config : κ) (New : κ → cloudformation.Client ε)
        (pages : List cloudformation.ListStacksOutput)
        (pre : List cloudformation.StackSetSummary) (s : cloudformation.StackSetSummary)
        (post : List cloudformation.StackSetSummary)
        (inst : cloudformation.StackSetSummary → cloudformation.ListStackInstancesOutput)
        (e : ε),
        (New config).ListStacks = pages.map Except.ok →
        (New config).ListStackSets = .ok ⟨pre ++ s :: post⟩ →
        (∀ t ∈ pre, (New config).ListStackInstances t.StackSetName = .ok (inst t)) →
        (New config).ListStackInstances s.StackSetName = .error e →
        CloudFormationGenerator.InitResources (.ok config) New [] =
          (some e, CloudFormationGenerator.stackDescriptors pages ++
            (pre.flatMap fun t =>
              CloudFormationGenerator.stackSetDescriptor t ::
                (inst t).Summaries.map CloudFormationGenerator.stackSetInstanceDescriptor) ++
            [CloudFormationGenerator.stackSetDescriptor s])) ∧
    (∀ (ProviderName : String) (client : κ)
        (GetAll : κ → Except ε (List octopusdeploy.Environment)) (e : ε),
        GetAll client = .error e →
        EnvironmentGenerator.InitResources ProviderName (.ok client) GetAll [] =
          (some e, [])) ∧
    (∀ (ProviderName : String) (client : κ)
        (GetAll : κ → Except ε (List octopusdeploy.TagSet)) (e : ε),
        GetAll client = .error e →
        TagSetGenerator.InitResources ProviderName (.ok client) GetAll [] = (some e, [])) := by
  refine ⟨?_, ?_, ?_, ?_, ?_, ?_⟩
  · intro config New allow k e hprev hk
    simpa using WafRegionalGenerator.waf_InitResources_fail_at config New allow [] k e hprev hk
  · intro config New oks e rest h
    simpa using CloudFormationGenerator.cf_InitResources_pages_error config New oks e rest [] h
  · intro config New pages e hp hs
    rw [CloudFormationGenerator.cf_InitResources_pages_ok config New pages [] hp,
      CloudFormationGenerator.listStackSets_error _ e _ hs]
    simp
  · intro config New pages pre s post inst e hp hsets hpre hs
    rw [CloudFormationGenerator.cf_InitResources_pages_ok config New pages [] hp,
      CloudFormationGenerator.listStackSets_instances_error _ pre s post inst e hsets hpre hs]
    simp
  · intro ProviderName client GetAll e h
    simp [EnvironmentGenerator.env_InitResources_ok_eq, h, errOf, itemsOf]
  · intro ProviderName client GetAll e h
    simp [TagSetGenerator.tagSet_InitResources_ok_eq, h, errOf, itemsOf]

/-- C1 (amended), at the sample answers `cfSecondSetFails`: the instance
listing of the second stack set fails, and the result set holds the stack, the
first stack set with its instance, and the second stack set. -/
theorem C1_failure_keeps_earlier_descriptors_witness :
    CloudFormationGenerator.InitResources (.ok ()) (fun _ => Sample.cfSecondSetFails) [] =
      (some "denied",
        [⟨"live", "live", "aws_cloudformation_stack", "aws", ["tags."]⟩,
          ⟨"first", "first", "aws_cloudformation_stack_set", "aws", ["tags."]⟩,
          ⟨"s1,111,", "s1,111,", "aws_cloudformation_stack_set_instance", "aws", ["tags."]⟩,
          ⟨"second", "second", "aws_cloudformation_stack_set", "aws", ["tags."]⟩]) :=
  (@C1_failure_keeps_earlier_descriptors String Unit).2.2.2.1 () (fun _ => Sample.cfSecondSetFails)
    [⟨[⟨"live", "CREATE_COMPLETE"⟩]⟩] [⟨"first"⟩] ⟨"second"⟩ []
    (fun _ => ⟨[⟨some "s1", some "111", none⟩]⟩) "denied" rfl rfl
    (by intro t ht; simp at ht; subst ht; rfl) rfl

section

open WafRegionalGenerator

/-- C2: `WafRegionalGenerator.InitResources` runs its twelve steps in the fixed
order `loadWebACL`, `loadByteMatchSet`, `loadGeoMatchSet`, `loadIPSet`,
`loadRateBasedRules`, `loadRegexMatchSets`, `loadRegexPatternSets`,
`loadWafRules`, `loadWafRuleGroups`, `loadSizeConstraintSets`,
`loadSqlInjectionMatchSets`, `loadXssMatchSet` and stops at the first error.
If the listing calls of the steps before step `k` succeed and the listing call
of step `k` fails with `e`, then `InitResources` returns exactly `e`, and both
the returned error and the result set are the same for any other answers that
agree on the listings of the steps up to `k`. -/
theorem C2_waf_fail_fast {ε κ : Type} (config : κ) (New : κ → wafregional.Client ε)
    (allow : List String) (R : List Resource) (k : Fin 12) (e : ε)
    (hprev : ∀ j : Fin 12, j < k → errOf (listing (New config) j) = none)
    (hk : errOf (listing (New config) k) = some e) :
    InitResources (.ok config) New allow R =
        rangeFuncs (New config)
          [loadWebACL allow, loadByteMatchSet allow, loadGeoMatchSet allow, loadIPSet allow,
            loadRateBasedRules allow, loadRegexMatchSets allow, loadRegexPatternSets allow,
            loadWafRules allow, loadWafRuleGroups allow, loadSizeConstraintSets allow,
            loadSqlInjectionMatchSets allow, loadXssMatchSet allow] R ∧
      (InitResources (.ok config) New allow R).1 = some e ∧
      ∀ New' : κ → wafregional.Client ε,
        (∀ j : Fin 12, j ≤ k → listing (New' config) j = listing (New config) j) →
        InitResources (.ok config) New' allow R = InitResources (.ok config) New allow R := by
  refine ⟨rfl, ?_, ?_⟩
  · rw [waf_InitResources_fail_at config New allow R k e hprev hk]
  · intro New' hagree
    have hprev' : ∀ j : Fin 12, j < k → errOf (listing (New' config) j) = none := by
      intro j hj
      rw [hagree j (le_of_lt hj)]
      exact hprev j hj
    have hk' : errOf (listing (New' config) k) = some e := by
      rw [hagree k (le_refl k)]
      exact hk
    rw [waf_InitResources_fail_at config New allow R k e hprev hk,
      waf_InitResources_fail_at config New' allow R k e hprev' hk',
      emittedBefore_congr allow (New config) (New' config) k.val
        (fun j hj => hagree j (le_of_lt (Fin.lt_def.2 hj)))]

end

section

open WafRegionalGenerator

/-- C2, at the sample answers `wafSecondFails`: step 1 (`loadByteMatchSet`)
fails with "throttled" after step 0 succeeded; `InitResources` returns
"throttled", and the answers `wafSecondFailsOther`, which differ from step 2
on, give the same outcome. -/
theorem C2_waf_fail_fast_witness :
    (InitResources (.ok ()) (fun _ => Sample.wafSecondFails) ["tags."] []).1 =
        some "throttled" ∧
      InitResources (.ok ()) (fun _ => Sample.wafSecondFailsOther) ["tags."] [] =
        InitResources (.ok ()) (fun _ => Sample.wafSecondFails) ["tags."] [] :=
  have h := C2_waf_fail_fast () (fun _ => Sample.wafSecondFails) ["tags."] [] 1 "throttled"
    (by decide) (by decide)
  ⟨h.2.1, h.2.2 (fun _ => Sample.wafSecondFailsOther) (by
    intro j hj
    fin_cases j <;> first | rfl | exact absurd hj (by decide))⟩

end

section

open CloudFormationGenerator cloudformation

/-- C3: when the paginator returns the pages `pages` without error, the
`aws_cloudformation_stack` descriptors appended by
`CloudFormationGenerator.InitResources` are the stack summaries of the pages,
in order, without those in state `DELETE_COMPLETE`, each mapped to the
descriptor with id and name `StackName`: they come right after the initial
result set, and nothing that follows them has kind `aws_cloudformation_stack`.
In particular a page with one `DELETE_COMPLETE` and one active summary gives
exactly one such descriptor, for the active stack. -/
theorem C3_stacks_without_deleted {ε κ : Type} (config : κ) (New : κ → Client ε)
    (R : List Resource) (pages : List ListStacksOutput)
    (hpages : (New config).ListStacks = pages.map Except.ok) :
    (∃ rest : List Resource,
      (InitResources (.ok config) New R).2 =
          R ++ (((pages.flatMap fun page => page.StackSummaries).filter
            fun stackSummary => decide (stackSummary.StackStatus ≠ "DELETE_COMPLETE")).map
            fun stackSummary =>
              ({ id := stackSummary.StackName, name := stackSummary.StackName,
                 kind := "aws_cloudformation_stack", providerName := "aws",
                 allowEmptyAttributes := ["tags."] } : Resource)) ++ rest ∧
        ∀ d ∈ rest, d.kind ≠ "aws_cloudformation_stack") ∧
      ∀ (gone live : String) (status : String), status ≠ "DELETE_COMPLETE" →
        pages = [⟨[⟨gone, "DELETE_COMPLETE"⟩, ⟨live, status⟩]⟩] →
        (InitResources (.ok config) New R).2.filter
            (fun d => decide (d.kind = "aws_cloudformation_stack")) =
          R.filter (fun d => decide (d.kind = "aws_cloudformation_stack")) ++
            [⟨live, live, "aws_cloudformation_stack", "aws", ["tags."]⟩] := by
  have main : ∃ rest : List Resource,
      (InitResources (.ok config) New R).2 = R ++ stackDescriptors pages ++ rest ∧
        ∀ d ∈ rest, d.kind ≠ "aws_cloudformation_stack" := by
    obtain ⟨rest, hrest, hmem⟩ := cf_InitResources_ok_resources config New R
    refine ⟨rest, ?_, ?_⟩
    · rw [hrest, hpages, listStacks_ok]
      simp
    · intro d hd
      rcases hmem d hd with ⟨_, _, s, _, rfl⟩ | ⟨_, _, _, i, _, rfl⟩
      · simp [stackSetDescriptor, NewSimpleResource]
      · simp [stackSetInstanceDescriptor, NewSimpleResource]
  refine ⟨main, ?_⟩
  intro gone live status hstatus hp
  obtain ⟨rest, hrest, hmem⟩ := main
  have hnone : rest.filter (fun d => decide (d.kind = "aws_cloudformation_stack")) = [] := by
    apply List.filter_eq_nil_iff.2
    intro d hd
    simpa using hmem d hd
  rw [hrest, hp]
  simp [List.filter_append, hnone, stackDescriptors, stackDescriptor, NewSimpleResource,
    StackStatusDeleteComplete, cloudFormationAllowEmptyValues, hstatus]

end

section

open CloudFormationGenerator

/-- C3, at the sample answers `cfOneStackSet`: the page holds the deleted stack
"gone" and the active stack "live"; the only `aws_cloudformation_stack`
descriptor in the result set is the one of "live". -/
theorem C3_stacks_without_deleted_witness :
    (InitResources (.ok ()) (fun _ => Sample.cfOneStackSet) []).2.filter
        (fun d => decide (d.kind = "aws_cloudformation_stack")) =
      [⟨"live", "live", "aws_cloudformation_stack", "aws", ["tags."]⟩] :=
  (C3_stacks_without_deleted () (fun _ => Sample.cfOneStackSet) []
    [⟨[⟨"gone", "DELETE_COMPLETE"⟩, ⟨"live", "CREATE_COMPLETE"⟩]⟩] rfl).2
    "gone" "live" "CREATE_COMPLETE" (by decide) rfl

end

section

open CloudFormationGenerator cloudformation

/-- C4: for every stack-set instance summary that an instance listing returns,
`CloudFormationGenerator.InitResources` appends one
`aws_cloudformation_stack_set_instance` descriptor whose id and name are
`StackSetId`, `Account` and `Region` joined in that order by single commas, a
nil field standing for the empty string with its slot kept: the id has exactly
two commas more than its components have.  For one stack set with the
instances (s1, 111, us-east-1) and (s1, 222, us-west-2) the ids are
"s1,111,us-east-1" and "s1,222,us-west-2", in that order. -/
theorem C4_stack_set_instance_ids {ε κ : Type} :
    (∀ (config : κ) (New : κ → Client ε) (R : List Resource)
        (pages : List ListStacksOutput) (stackSets : ListStackSetsOutput),
        (New config).ListStacks = pages.map Except.ok →
        (New config).ListStackSets = .ok stackSets →
        (InitResources (.ok config) New R).2.filter
            (fun d => decide (d.kind = "aws_cloudformation_stack_set_instance")) =
          R.filter (fun d => decide (d.kind = "aws_cloudformation_stack_set_instance")) ++
            (instancesListed (New config) stackSets.Summaries).map fun stackSetI =>
              ({ id := aws.StringValue stackSetI.StackSetId ++ "," ++
                   aws.StringValue stackSetI.Account ++ "," ++
                   aws.StringValue stackSetI.Region,
                 name := aws.StringValue stackSetI.StackSetId ++ "," ++
                   aws.StringValue stackSetI.Account ++ "," ++
                   aws.StringValue stackSetI.Region,
                 kind := "aws_cloudformation_stack_set_instance", providerName := "aws",
                 allowEmptyAttributes := ["tags."] } : Resource)) ∧
      (aws.StringValue none = "" ∧ ∀ s : String, aws.StringValue (some s) = s) ∧
      (∀ stackSetI : StackInstanceSummary,
        (stackSetInstanceId stackSetI).toList.count ',' =
          (aws.StringValue stackSetI.StackSetId).toList.count ',' +
            (aws.StringValue stackSetI.Account).toList.count ',' +
            (aws.StringValue stackSetI.Region).toList.count ',' + 2) ∧
      (∀ (config : κ) (New : κ → Client ε) (pages : List ListStacksOutput)
        (parent : StackSetSummary),
        (New config).ListStacks = pages.map Except.ok →
        (New config).ListStackSets = .ok ⟨[parent]⟩ →
        (New config).ListStackInstances parent.StackSetName =
          .ok ⟨[⟨some "s1", some "111", some "us-east-1"⟩,
            ⟨some "s1", some "222", some "us-west-2"⟩]⟩ →
        ((InitResources (.ok config) New []).2.filter
            (fun d => decide (d.kind = "aws_cloudformation_stack_set_instance"))).map
            (fun d => d.id) =
          ["s1,111,us-east-1", "s1,222,us-west-2"]) := by
  have main : ∀ (config : κ) (New : κ → Client ε) (R : List Resource)
      (pages : List ListStacksOutput) (stackSets : ListStackSetsOutput),
      (New config).ListStacks = pages.map Except.ok →
      (New config).ListStackSets = .ok stackSets →
      (InitResources (.ok config) New R).2.filter
          (fun d => decide (d.kind = "aws_cloudformation_stack_set_instance")) =
        R.filter (fun d => decide (d.kind = "aws_cloudformation_stack_set_instance")) ++
          (instancesListed (New config) stackSets.Summaries).map
            stackSetInstanceDescriptor := by
    intro config New R pages stackSets hp hs
    rw [cf_InitResources_pages_ok config New pages R hp]
    simp only [listStackSets, hs]
    rw [filter_rangeStackSets, List.filter_append, filter_stackDescriptors]
    simp
  refine ⟨main, ⟨rfl, fun _ => rfl⟩, ?_, ?_⟩
  · intro stackSetI
    rw [stackSetInstanceId_toList]
    simp only [List.count_append, List.count_cons_self, List.count_cons]
    omega
  · intro config New pages parent hp hs hi
    rw [main config New [] pages ⟨[parent]⟩ hp hs]
    simp only [instancesListed, hi]
    decide

end

section

open CloudFormationGenerator

/-- C4, at the sample answers `cfOneStackSet`: the two instances of the one
stack set give the ids "s1,111,us-east-1" and "s1,222,us-west-2". -/
theorem C4_stack_set_instance_ids_witness :
    ((InitResources (.ok ()) (fun _ => Sample.cfOneStackSet) []).2.filter
        (fun d => decide (d.kind = "aws_cloudformation_stack_set_instance"))).map
        (fun d => d.id) =
      ["s1,111,us-east-1", "s1,222,us-west-2"] :=
  (@C4_stack_set_instance_ids String Unit).2.2.2 () (fun _ => Sample.cfOneStackSet)
    [⟨[⟨"gone", "DELETE_COMPLETE"⟩, ⟨"live", "CREATE_COMPLETE"⟩]⟩] ⟨"parent"⟩ rfl rfl rfl

end

section

open CloudFormationGenerator cloudformation

/-- C5: the composite id of a stack-set instance is a function of the three
component strings (`StackSetId`, `Account`, `Region`, a nil field read as the
empty string): equal components give equal ids, and two tuples that differ in
at least one component, none of whose components contains a comma, give
different ids. -/
theorem C5_composite_id_injective :
    (∀ i j : StackInstanceSummary,
        aws.StringValue i.StackSetId = aws.StringValue j.StackSetId →
        aws.StringValue i.Account = aws.StringValue j.Account →
        aws.StringValue i.Region = aws.StringValue j.Region →
        stackSetInstanceId i = stackSetInstanceId j) ∧
      ∀ i j : StackInstanceSummary,
        (',' ∉ (aws.StringValue i.StackSetId).toList ∧
          ',' ∉ (aws.StringValue i.Account).toList ∧
          ',' ∉ (aws.StringValue i.Region).toList) →
        (',' ∉ (aws.StringValue j.StackSetId).toList ∧
          ',' ∉ (aws.StringValue j.Account).toList ∧
          ',' ∉ (aws.StringValue j.Region).toList) →
        (aws.StringValue i.StackSetId ≠ aws.StringValue j.StackSetId ∨
          aws.StringValue i.Account ≠ aws.StringValue j.Account ∨
          aws.StringValue i.Region ≠ aws.StringValue j.Region) →
        stackSetInstanceId i ≠ stackSetInstanceId j := by
  constructor
  · intro i j h1 h2 h3
    simp only [stackSetInstanceId, h1, h2, h3]
  · intro i j hi hj hne heq
    obtain ⟨h1, h2, h3⟩ := stackSetInstanceId_inj i j hi.1 hi.2.1 hj.1 hj.2.1 heq
    rcases hne with h | h | h
    · exact h h1
    · exact h h2
    · exact h h3

end

section

open CloudFormationGenerator

/-- C5, at two concrete tuples that differ in account and region and hold no
comma: their ids differ. -/
theorem C5_composite_id_injective_witness :
    stackSetInstanceId ⟨some "s1", some "111", some "us-east-1"⟩ ≠
      stackSetInstanceId ⟨some "s1", some "222", some "us-west-2"⟩ :=
  C5_composite_id_injective.2 ⟨some "s1", some "111", some "us-east-1"⟩
    ⟨some "s1", some "222", some "us-west-2"⟩ (by decide) (by decide) (Or.inr (Or.inl (by decide)))

end

section

open WafRegionalGenerator wafregional

/-- C6: when every listing call succeeds, `WafRegionalGenerator.InitResources`
returns no error and the result set is the initial one followed by one
descriptor per returned item (id the item's id field, name its `Name`), step
after step in the fixed order and, within a step, in the order of the answer;
nothing is dropped, reordered or deduplicated.  When every listing returns no
item, the call succeeds and the result set is unchanged. -/
theorem C6_waf_all_listings_succeed {ε κ : Type} (config : κ) (New : κ → Client ε)
    (allow : List String) (R : List Resource)
    (webACLs : ListWebACLsOutput) (h0 : (New config).ListWebACLs = .ok webACLs)
    (byteMatchSets : ListByteMatchSetsOutput) (h1 : (New config).ListByteMatchSets = .ok byteMatchSets)
    (geoMatchSets : ListGeoMatchSetsOutput) (h2 : (New config).ListGeoMatchSets = .ok geoMatchSets)
    (ipSets : ListIPSetsOutput) (h3 : (New config).ListIPSets = .ok ipSets)
    (rateBasedRules : ListRateBasedRulesOutput) (h4 : (New config).ListRateBasedRules = .ok rateBasedRules)
    (regexMatchSets : ListRegexMatchSetsOutput) (h5 : (New config).ListRegexMatchSets = .ok regexMatchSets)
    (regexPatternSets : ListRegexPatternSetsOutput) (h6 : (New config).ListRegexPatternSets = .ok regexPatternSets)
    (rules : ListRulesOutput) (h7 : (New config).ListRules = .ok rules)
    (ruleGroups : ListRuleGroupsOutput) (h8 : (New config).ListRuleGroups = .ok ruleGroups)
    (sizeConstraintSets : ListSizeConstraintSetsOutput) (h9 : (New config).ListSizeConstraintSets = .ok sizeConstraintSets)
    (sqlInjectionMatchSets : ListSqlInjectionMatchSetsOutput) (h10 : (New config).ListSqlInjectionMatchSets = .ok sqlInjectionMatchSets)
    (xssMatchSets : ListXssMatchSetsOutput) (h11 : (New config).ListXssMatchSets = .ok xssMatchSets) :
    InitResources (.ok config) New allow R =
        (none, R
          ++ (webACLs.WebACLs.map fun acl =>
            ({ id := acl.WebACLId, name := acl.Name, kind := "aws_wafregional_web_acl",
               providerName := "aws", allowEmptyAttributes := allow } : Resource))
          ++ (byteMatchSets.ByteMatchSets.map fun byteMatchSet =>
            ({ id := byteMatchSet.ByteMatchSetId, name := byteMatchSet.Name, kind := "aws_wafregional_byte_match_set",
               providerName := "aws", allowEmptyAttributes := allow } : Resource))
          ++ (geoMatchSets.GeoMatchSets.map fun matchSet =>
            ({ id := matchSet.GeoMatchSetId, name := matchSet.Name, kind := "aws_wafregional_geo_match_set",
               providerName := "aws", allowEmptyAttributes := allow } : Resource))
          ++ (ipSets.IPSets.map fun IPSet =>
            ({ id := IPSet.IPSetId, name := IPSet.Name, kind := "aws_wafregional_ipset",
               providerName := "aws", allowEmptyAttributes := allow } : Resource))
          ++ (rateBasedRules.Rules.map fun rule =>
            ({ id := rule.RuleId, name := rule.Name, kind := "aws_wafregional_rate_based_rule",
               providerName := "aws", allowEmptyAttributes := allow } : Resource))
          ++ (regexMatchSets.RegexMatchSets.map fun regexMatchSet =>
            ({ id := regexMatchSet.RegexMatchSetId, name := regexMatchSet.Name, kind := "aws_wafregional_regex_match_set",
               providerName := "aws", allowEmptyAttributes := allow } : Resource))
          ++ (regexPatternSets.RegexPatternSets.map fun regexPatternSet =>
            ({ id := regexPatternSet.RegexPatternSetId, name := regexPatternSet.Name, kind := "aws_wafregional_regex_pattern_set",
               providerName := "aws", allowEmptyAttributes := allow } : Resource))
          ++ (rules.Rules.map fun rule =>
            ({ id := rule.RuleId, name := rule.Name, kind := "aws_wafregional_rule",
               providerName := "aws", allowEmptyAttributes := allow } : Resource))
          ++ (ruleGroups.RuleGroups.map fun ruleGroup =>
            ({ id := ruleGroup.RuleGroupId, name := ruleGroup.Name, kind := "aws_wafregional_rule_group",
               providerName := "aws", allowEmptyAttributes := allow } : Resource))
          ++ (sizeConstraintSets.SizeConstraintSets.map fun sizeConstraintSet =>
            ({ id := sizeConstraintSet.SizeConstraintSetId, name := sizeConstraintSet.Name, kind := "aws_wafregional_size_constraint_set",
               providerName := "aws", allowEmptyAttributes := allow } : Resource))
          ++ (sqlInjectionMatchSets.SqlInjectionMatchSets.map fun sqlInjectionMatchSet =>
            ({ id := sqlInjectionMatchSet.SqlInjectionMatchSetId, name := sqlInjectionMatchSet.Name, kind := "aws_wafregional_sql_injection_match_set",
               providerName := "aws", allowEmptyAttributes := allow } : Resource))
          ++ (xssMatchSets.XssMatchSets.map fun xssMatchSet =>
            ({ id := xssMatchSet.XssMatchSetId, name := xssMatchSet.Name, kind := "aws_wafregional_xss_match_set",
               providerName := "aws", allowEmptyAttributes := allow } : Resource))) ∧
      ((webACLs.WebACLs = [] ∧
          byteMatchSets.ByteMatchSets = [] ∧
          geoMatchSets.GeoMatchSets = [] ∧
          ipSets.IPSets = [] ∧
          rateBasedRules.Rules = [] ∧
          regexMatchSets.RegexMatchSets = [] ∧
          regexPatternSets.RegexPatternSets = [] ∧
          rules.Rules = [] ∧
          ruleGroups.RuleGroups = [] ∧
          sizeConstraintSets.SizeConstraintSets = [] ∧
          sqlInjectionMatchSets.SqlInjectionMatchSets = [] ∧
          xssMatchSets.XssMatchSets = []) →
        InitResources (.ok config) New allow R = (none, R)) := by
  have hall : ∀ j : Fin 12, errOf (listing (New config) j) = none := by
    intro j
    fin_cases j <;> simp [listing, errOf, Except.map, *]
  have key := waf_InitResources_all_ok config New allow R hall
  simp only [emittedBefore] at key
  constructor
  · rw [key]
    simp [List.finRange, List.flatMap, listing, itemsOf, Except.map, descriptor, kind,
      NewSimpleResource, *]
    rfl
  · rintro ⟨e0, e1, e2, e3, e4, e5, e6, e7, e8, e9, e10, e11⟩
    rw [key]
    simp [List.finRange, List.flatMap, listing, itemsOf, Except.map, *]

end

section

open WafRegionalGenerator

/-- C6, at the sample answers `wafAllSucceed`: two web ACLs with the same id,
one rule and one XSS match set give four descriptors, in step order, the
duplicate kept. -/
theorem C6_waf_all_listings_succeed_witness :
    InitResources (.ok ()) (fun _ => Sample.wafAllSucceed) ["tags."] [] =
      (none,
        [⟨"acl-1", "one", "aws_wafregional_web_acl", "aws", ["tags."]⟩,
          ⟨"acl-1", "again", "aws_wafregional_web_acl", "aws", ["tags."]⟩,
          ⟨"rule-1", "block", "aws_wafregional_rule", "aws", ["tags."]⟩,
          ⟨"xss-1", "xss", "aws_wafregional_xss_match_set", "aws", ["tags."]⟩]) :=
  (C6_waf_all_listings_succeed () (fun _ => Sample.wafAllSucceed) ["tags."] []
    _ rfl _ rfl _ rfl _ rfl _ rfl _ rfl _ rfl _ rfl _ rfl _ rfl _ rfl _ rfl).1

end

section

open CloudFormationGenerator

/-- C7 (counterexample): the paginated stack listing gets one page with an
active stack and then a failed page request; the step returns the error, and
the result set, empty before the step, holds the descriptor of that stack. -/
theorem C7_counterexample :
    listStacks Sample.cfSecondPageFails.ListStacks [] =
        (some "page 2 failed",
          [⟨"live", "live", "aws_cloudformation_stack", "aws", ["tags."]⟩]) ∧
      (listStacks Sample.cfSecondPageFails.ListStacks []).2 ≠ [] := by
  decide

end

/-- C7 (amended): every step returns the error of its failing listing or
pagination call unchanged.  A step that makes a single listing call (the twelve
WAF Regional steps, the two Octopus Deploy steps) leaves the result set exactly
as it was.  The paginated stack listing leaves the result set as it was,
followed by the stacks of the pages fetched before the failing request.  The
stack-set step leaves it as it was when the stack-set listing fails; when the
instance listing of a stack set fails, it leaves it followed by the descriptors
of the stack sets before that one with their instances, and the descriptor of
that stack set. -/
theorem C7_step_failure {ε κ : Type} :
    (∀ (k : Fin 12) (allow : List String) (svc : wafregional.Client ε) (R : List Resource)
        (e : ε),
        errOf (WafRegionalGenerator.listing svc k) = some e →
        WafRegionalGenerator.step k allow svc R = (some e, R)) ∧
    (∀ (ProviderName : String) (GetAll : κ → Except ε (List octopusdeploy.Environment))
        (client : κ) (R : List Resource) (e : ε),
        GetAll client = .error e →
        EnvironmentGenerator.createEnvironmentResources ProviderName GetAll client R =
          (some e, R)) ∧
    (∀ (ProviderName : String) (GetAll : κ → Except ε (List octopusdeploy.TagSet))
        (client : κ) (R : List Resource) (e : ε),
        GetAll client = .error e →
        TagSetGenerator.createTagSetResources ProviderName GetAll client R = (some e, R)) ∧
    (∀ (oks : List cloudformation.ListStacksOutput) (e : ε)
        (rest : List (Except ε cloudformation.ListStacksOutput)) (R : List Resource),
        CloudFormationGenerator.listStacks (oks.map Except.ok ++ Except.error e :: rest) R =
          (some e, R ++ CloudFormationGenerator.stackDescriptors oks)) ∧
    (∀ (svc : cloudformation.Client ε) (R : List Resource) (e : ε),
        svc.ListStackSets = .error e →
        CloudFormationGenerator.listStackSets svc R = (some e, R)) ∧
    (∀ (svc : cloudformation.Client ε) (R : List Resource)
        (pre : List cloudformation.StackSetSummary) (s : cloudformation.StackSetSummary)
        (post : List cloudformation.StackSetSummary)
        (inst : cloudformation.StackSetSummary → cloudformation.ListStackInstancesOutput)
        (e : ε),
        svc.ListStackSets = .ok ⟨pre ++ s :: post⟩ →
        (∀ t ∈ pre, svc.ListStackInstances t.StackSetName = .ok (inst t)) →
        svc.ListStackInstances s.StackSetName = .error e →
        CloudFormationGenerator.listStackSets svc R =
          (some e, R ++
            (pre.flatMap fun t =>
              CloudFormationGenerator.stackSetDescriptor t ::
                (inst t).Summaries.map CloudFormationGenerator.stackSetInstanceDescriptor) ++
            [CloudFormationGenerator.stackSetDescriptor s])) := by
  refine ⟨?_, ?_, ?_, ?_, ?_, ?_⟩
  · intro k allow svc R e h
    rw [WafRegionalGenerator.step_eq, h, itemsOf_eq_nil h]
    simp
  · intro ProviderName GetAll client R e h
    simp [EnvironmentGenerator.createEnvironmentResources_eq, h, errOf, itemsOf]
  · intro ProviderName GetAll client R e h
    simp [TagSetGenerator.createTagSetResources_eq, h, errOf, itemsOf]
  · intro oks e rest R
    exact CloudFormationGenerator.listStacks_error oks e rest R
  · intro svc R e h
    exact CloudFormationGenerator.listStackSets_error svc e R h
  · intro svc R pre s post inst e hsets hpre hs
    exact CloudFormationGenerator.listStackSets_instances_error svc pre s post inst e hsets
      hpre hs R

/-- C7 (amended), at the sample answers `wafSecondFails`: step 1
(`loadByteMatchSet`) fails and leaves a result set of one descriptor as it
was. -/
theorem C7_step_failure_witness :
    WafRegionalGenerator.loadByteMatchSet ["tags."] Sample.wafSecondFails
        [⟨"acl-1", "one", "aws_wafregional_web_acl", "aws", ["tags."]⟩] =
      (some "throttled", [⟨"acl-1", "one", "aws_wafregional_web_acl", "aws", ["tags."]⟩]) :=
  (@C7_step_failure String Unit).1 1 ["tags."] Sample.wafSecondFails _ "throttled" rfl

/-- C8: when obtaining the configuration (`generateConfig` for the AWS
generators) or the client (`Client()` for the Octopus Deploy generators) fails
with `e`, `InitResources` returns exactly `e` and leaves the result set
unchanged, whatever the remote listings would answer. -/
theorem C8_configuration_error {ε κ : Type} (e : ε) (R : List Resource) :
    (∀ (New : κ → wafregional.Client ε) (allow : List String),
        WafRegionalGenerator.InitResources (.error e) New allow R = (some e, R)) ∧
    (∀ New : κ → cloudformation.Client ε,
        CloudFormationGenerator.InitResources (.error e) New R = (some e, R)) ∧
    (∀ (ProviderName : String) (GetAll : κ → Except ε (List octopusdeploy.Environment)),
        EnvironmentGenerator.InitResources ProviderName (.error e) GetAll R = (some e, R)) ∧
    (∀ (ProviderName : String) (GetAll : κ → Except ε (List octopusdeploy.TagSet)),
        TagSetGenerator.InitResources ProviderName (.error e) GetAll R = (some e, R)) :=
  ⟨fun _ _ => rfl, fun _ => rfl, fun _ _ => rfl, fun _ _ => rfl⟩

/-- C9: kind, provider name and allow-empty list of a descriptor are fixed by
the step that emits it.  Every descriptor appended by
`CloudFormationGenerator.InitResources` has provider "aws", allow-empty list
["tags."], and comes from a stack summary of a fetched page with kind
`aws_cloudformation_stack`, from a listed stack-set summary with kind
`aws_cloudformation_stack_set`, or from a listed stack-set instance summary
with kind `aws_cloudformation_stack_set_instance`.  Every descriptor appended
by a WAF Regional step has provider "aws" and the kind of that step.  Every
descriptor appended by an Octopus Deploy generator has the generator's
`ProviderName`, an empty allow-empty list, and kind `octopusdeploy_environment`
or `octopusdeploy_tag_set`. -/
theorem C9_constant_descriptor_fields {ε κ : Type} :
    (∀ (generateConfig : Except ε κ) (New : κ → cloudformation.Client ε) (R : List Resource),
      ∃ added, (CloudFormationGenerator.InitResources generateConfig New R).2 = R ++ added ∧
        ∀ d ∈ added, d.providerName = "aws" ∧ d.allowEmptyAttributes = ["tags."] ∧
          ((d.kind = "aws_cloudformation_stack" ∧
              ∃ config page, generateConfig = .ok config ∧
                Except.ok page ∈ (New config).ListStacks ∧
                ∃ s ∈ page.StackSummaries, d.id = s.StackName ∧ d.name = s.StackName) ∨
            (d.kind = "aws_cloudformation_stack_set" ∧
              ∃ config stackSets, generateConfig = .ok config ∧
                (New config).ListStackSets = .ok stackSets ∧
                ∃ s ∈ stackSets.Summaries, d.id = s.StackSetName ∧ d.name = s.StackSetName) ∨
            (d.kind = "aws_cloudformation_stack_set_instance" ∧
              ∃ config StackSetName out, generateConfig = .ok config ∧
                (New config).ListStackInstances StackSetName = .ok out ∧
                ∃ i ∈ out.Summaries,
                  d.id = CloudFormationGenerator.stackSetInstanceId i ∧
                  d.name = CloudFormationGenerator.stackSetInstanceId i))) ∧
    (∀ (allow : List String) (svc : wafregional.Client ε) (R : List Resource),
      ∃ added, (WafRegionalGenerator.loadWebACL allow svc R).2 = R ++ added ∧
        ∀ d ∈ added, d.providerName = "aws" ∧ d.kind = "aws_wafregional_web_acl") ∧
    (∀ (allow : List String) (svc : wafregional.Client ε) (R : List Resource),
      ∃ added, (WafRegionalGenerator.loadByteMatchSet allow svc R).2 = R ++ added ∧
        ∀ d ∈ added, d.providerName = "aws" ∧ d.kind = "aws_wafregional_byte_match_set") ∧
    (∀ (allow : List String) (svc : wafregional.Client ε) (R : List Resource),
      ∃ added, (WafRegionalGenerator.loadGeoMatchSet allow svc R).2 = R ++ added ∧
        ∀ d ∈ added, d.providerName = "aws" ∧ d.kind = "aws_wafregional_geo_match_set") ∧
    (∀ (allow : List String) (svc : wafregional.Client ε) (R : List Resource),
      ∃ added, (WafRegionalGenerator.loadIPSet allow svc R).2 = R ++ added ∧
        ∀ d ∈ added, d.providerName = "aws" ∧ d.kind = "aws_wafregional_ipset") ∧
    (∀ (allow : List String) (svc : wafregional.Client ε) (R : List Resource),
      ∃ added, (WafRegionalGenerator.loadRateBasedRules allow svc R).2 = R ++ added ∧
        ∀ d ∈ added, d.providerName = "aws" ∧ d.kind = "aws_wafregional_rate_based_rule") ∧
    (∀ (allow : List String) (svc : wafregional.Client ε) (R : List Resource),
      ∃ added, (WafRegionalGenerator.loadRegexMatchSets allow svc R).2 = R ++ added ∧
        ∀ d ∈ added, d.providerName = "aws" ∧ d.kind = "aws_wafregional_regex_match_set") ∧
    (∀ (allow : List String) (svc : wafregional.Client ε) (R : List Resource),
      ∃ added, (WafRegionalGenerator.loadRegexPatternSets allow svc R).2 = R ++ added ∧
        ∀ d ∈ added, d.providerName = "aws" ∧ d.kind = "aws_wafregional_regex_pattern_set") ∧
    (∀ (allow : List String) (svc : wafregional.Client ε) (R : List Resource),
      ∃ added, (WafRegionalGenerator.loadWafRules allow svc R).2 = R ++ added ∧
        ∀ d ∈ added, d.providerName = "aws" ∧ d.kind = "aws_wafregional_rule") ∧
    (∀ (allow : List String) (svc : wafregional.Client ε) (R : List Resource),
      ∃ added, (WafRegionalGenerator.loadWafRuleGroups allow svc R).2 = R ++ added ∧
        ∀ d ∈ added, d.providerName = "aws" ∧ d.kind = "aws_wafregional_rule_group") ∧
    (∀ (allow : List String) (svc : wafregional.Client ε) (R : List Resource),
      ∃ added, (WafRegionalGenerator.loadSizeConstraintSets allow svc R).2 = R ++ added ∧
        ∀ d ∈ added, d.providerName = "aws" ∧ d.kind = "aws_wafregional_size_constraint_set") ∧
    (∀ (allow : List String) (svc : wafregional.Client ε) (R : List Resource),
      ∃ added, (WafRegionalGenerator.loadSqlInjectionMatchSets allow svc R).2 = R ++ added ∧
        ∀ d ∈ added, d.providerName = "aws" ∧ d.kind = "aws_wafregional_sql_injection_match_set") ∧
    (∀ (allow : List String) (svc : wafregional.Client ε) (R : List Resource),
      ∃ added, (WafRegionalGenerator.loadXssMatchSet allow svc R).2 = R ++ added ∧
        ∀ d ∈ added, d.providerName = "aws" ∧ d.kind = "aws_wafregional_xss_match_set") ∧
    (∀ (ProviderName : String) (Client : Except ε κ)
        (GetAll : κ → Except ε (List octopusdeploy.Environment)) (R : List Resource),
      ∃ added,
        (EnvironmentGenerator.InitResources ProviderName Client GetAll R).2 = R ++ added ∧
        ∀ d ∈ added, d.providerName = ProviderName ∧ d.allowEmptyAttributes = [] ∧
          d.kind = "octopusdeploy_environment") ∧
    (∀ (ProviderName : String) (Client : Except ε κ)
        (GetAll : κ → Except ε (List octopusdeploy.TagSet)) (R : List Resource),
      ∃ added,
        (TagSetGenerator.InitResources ProviderName Client GetAll R).2 = R ++ added ∧
        ∀ d ∈ added, d.providerName = ProviderName ∧ d.allowEmptyAttributes = [] ∧
          d.kind = "octopusdeploy_tag_set") := by
  have waf : ∀ (k : Fin 12) (allow : List String) (svc : wafregional.Client ε)
      (R : List Resource),
      ∃ added, (WafRegionalGenerator.step k allow svc R).2 = R ++ added ∧
        ∀ d ∈ added, d.providerName = "aws" ∧ d.kind = WafRegionalGenerator.kind k := by
    intro k allow svc R
    refine ⟨_, by rw [WafRegionalGenerator.step_eq], ?_⟩
    intro d hd
    simp only [List.mem_map] at hd
    obtain ⟨item, _, rfl⟩ := hd
    exact ⟨rfl, rfl⟩
  refine ⟨?_, ?_, ?_, ?_, ?_, ?_, ?_, ?_, ?_, ?_, ?_, ?_, ?_, ?_, ?_⟩
  · intro generateConfig New R
    cases generateConfig with
    | error e => exact ⟨[], by simp [CloudFormationGenerator.InitResources], by simp⟩
    | ok config =>
      obtain ⟨rest, hrest, hmem⟩ :=
        CloudFormationGenerator.cf_InitResources_ok_resources config New R
      refine ⟨(CloudFormationGenerator.listStacks (New config).ListStacks []).2 ++ rest,
        by rw [hrest, List.append_assoc], ?_⟩
      intro d hd
      rcases List.mem_append.1 hd with hd | hd
      · obtain ⟨page, hpage, s, hs, _, rfl⟩ := CloudFormationGenerator.mem_listStacks _ d hd
        exact ⟨rfl, rfl, Or.inl ⟨rfl, config, page, rfl, hpage, s, hs, rfl, rfl⟩⟩
      · rcases hmem d hd with ⟨stackSets, hsets, s, hs, rfl⟩ | ⟨name, out, hout, i, hi, rfl⟩
        · exact ⟨rfl, rfl, Or.inr (Or.inl ⟨rfl, config, stackSets, rfl, hsets, s, hs, rfl, rfl⟩)⟩
        · exact ⟨rfl, rfl, Or.inr (Or.inr ⟨rfl, config, name, out, rfl, hout, i, hi, rfl, rfl⟩)⟩
  · exact waf ⟨0, by decide⟩
  · exact waf ⟨1, by decide⟩
  · exact waf ⟨2, by decide⟩
  · exact waf ⟨3, by decide⟩
  · exact waf ⟨4, by decide⟩
  · exact waf ⟨5, by decide⟩
  · exact waf ⟨6, by decide⟩
  · exact waf ⟨7, by decide⟩
  · exact waf ⟨8, by decide⟩
  · exact waf ⟨9, by decide⟩
  · exact waf ⟨10, by decide⟩
  · exact waf ⟨11, by decide⟩
  · intro ProviderName Client GetAll R
    cases Client with
    | error e => exact ⟨[], by simp [EnvironmentGenerator.InitResources], by simp⟩
    | ok client =>
      refine ⟨_, by rw [EnvironmentGenerator.env_InitResources_ok_eq], ?_⟩
      intro d hd
      simp only [List.mem_map] at hd
      obtain ⟨item, _, rfl⟩ := hd
      exact ⟨rfl, rfl, rfl⟩
  · intro ProviderName Client GetAll R
    cases Client with
    | error e => exact ⟨[], by simp [TagSetGenerator.InitResources], by simp⟩
    | ok client =>
      refine ⟨_, by rw [TagSetGenerator.tagSet_InitResources_ok_eq], ?_⟩
      intro d hd
      simp only [List.mem_map] at hd
      obtain ⟨item, _, rfl⟩ := hd
      exact ⟨rfl, rfl, rfl⟩

/-- C10: `InitResources` only appends to the result set.  For each of the four
generators, every initial result set `R` and all remote answers, whether the
call fails or not: `R` is an initial segment of the result set after the call;
the returned error and the appended descriptors are those of a run started on
the empty set; and when the call succeeds, running it again on its own result
with the same answers succeeds and appends the same descriptors a second
time. -/
theorem C10_append_only {ε κ : Type} (R : List Resource) :
    (∀ (generateConfig : Except ε κ) (New : κ → wafregional.Client ε) (allow : List String),
      R <+: (WafRegionalGenerator.InitResources generateConfig New allow R).2 ∧
      WafRegionalGenerator.InitResources generateConfig New allow R =
        ((WafRegionalGenerator.InitResources generateConfig New allow []).1,
          R ++ (WafRegionalGenerator.InitResources generateConfig New allow []).2) ∧
      ((WafRegionalGenerator.InitResources generateConfig New allow R).1 = none →
        WafRegionalGenerator.InitResources generateConfig New allow
            (WafRegionalGenerator.InitResources generateConfig New allow R).2 =
          (none, R ++ (WafRegionalGenerator.InitResources generateConfig New allow []).2 ++
            (WafRegionalGenerator.InitResources generateConfig New allow []).2))) ∧
    (∀ (generateConfig : Except ε κ) (New : κ → cloudformation.Client ε),
      R <+: (CloudFormationGenerator.InitResources generateConfig New R).2 ∧
      CloudFormationGenerator.InitResources generateConfig New R =
        ((CloudFormationGenerator.InitResources generateConfig New []).1,
          R ++ (CloudFormationGenerator.InitResources generateConfig New []).2) ∧
      ((CloudFormationGenerator.InitResources generateConfig New R).1 = none →
        CloudFormationGenerator.InitResources generateConfig New
            (CloudFormationGenerator.InitResources generateConfig New R).2 =
          (none, R ++ (CloudFormationGenerator.InitResources generateConfig New []).2 ++
            (CloudFormationGenerator.InitResources generateConfig New []).2))) ∧
    (∀ (ProviderName : String) (Client : Except ε κ)
        (GetAll : κ → Except ε (List octopusdeploy.Environment)),
      R <+: (EnvironmentGenerator.InitResources ProviderName Client GetAll R).2 ∧
      EnvironmentGenerator.InitResources ProviderName Client GetAll R =
        ((EnvironmentGenerator.InitResources ProviderName Client GetAll []).1,
          R ++ (EnvironmentGenerator.InitResources ProviderName Client GetAll []).2) ∧
      ((EnvironmentGenerator.InitResources ProviderName Client GetAll R).1 = none →
        EnvironmentGenerator.InitResources ProviderName Client GetAll
            (EnvironmentGenerator.InitResources ProviderName Client GetAll R).2 =
          (none, R ++ (EnvironmentGenerator.InitResources ProviderName Client GetAll []).2 ++
            (EnvironmentGenerator.InitResources ProviderName Client GetAll []).2))) ∧
    (∀ (ProviderName : String) (Client : Except ε κ)
        (GetAll : κ → Except ε (List octopusdeploy.TagSet)),
      R <+: (TagSetGenerator.InitResources ProviderName Client GetAll R).2 ∧
      TagSetGenerator.InitResources ProviderName Client GetAll R =
        ((TagSetGenerator.InitResources ProviderName Client GetAll []).1,
          R ++ (TagSetGenerator.InitResources ProviderName Client GetAll []).2) ∧
      ((TagSetGenerator.InitResources ProviderName Client GetAll R).1 = none →
        TagSetGenerator.InitResources ProviderName Client GetAll
            (TagSetGenerator.InitResources ProviderName Client GetAll R).2 =
          (none, R ++ (TagSetGenerator.InitResources ProviderName Client GetAll []).2 ++
            (TagSetGenerator.InitResources ProviderName Client GetAll []).2))) :=
  ⟨fun generateConfig New allow =>
      append_only_of_frame _
        (WafRegionalGenerator.waf_InitResources_frame generateConfig New allow) R,
    fun generateConfig New =>
      append_only_of_frame _ (CloudFormationGenerator.cf_InitResources_frame generateConfig New) R,
    fun ProviderName Client GetAll =>
      append_only_of_frame _
        (EnvironmentGenerator.env_InitResources_frame ProviderName Client GetAll) R,
    fun ProviderName Client GetAll =>
      append_only_of_frame _ (TagSetGenerator.tagSet_InitResources_frame ProviderName Client GetAll) R⟩

/-- C10, at the sample answers `cfOneStackSet`: a first run on the empty result
set succeeds with four descriptors, and a second run on its result gives the
same four descriptors twice. -/
theorem C10_append_only_witness :
    CloudFormationGenerator.InitResources (.ok ()) (fun _ => Sample.cfOneStackSet)
        (CloudFormationGenerator.InitResources (.ok ())
          (fun _ => Sample.cfOneStackSet) []).2 =
      (none,
        [⟨"live", "live", "aws_cloudformation_stack", "aws", ["tags."]⟩,
          ⟨"parent", "parent", "aws_cloudformation_stack_set", "aws", ["tags."]⟩,
          ⟨"s1,111,us-east-1", "s1,111,us-east-1", "aws_cloudformation_stack_set_instance",
            "aws", ["tags."]⟩,
          ⟨"s1,222,us-west-2", "s1,222,us-west-2", "aws_cloudformation_stack_set_instance",
            "aws", ["tags."]⟩,
          ⟨"live", "live", "aws_cloudformation_stack", "aws", ["tags."]⟩,
          ⟨"parent", "parent", "aws_cloudformation_stack_set", "aws", ["tags."]⟩,
          ⟨"s1,111,us-east-1", "s1,111,us-east-1", "aws_cloudformation_stack_set_instance",
            "aws", ["tags."]⟩,
          ⟨"s1,222,us-west-2", "s1,222,us-west-2", "aws_cloudformation_stack_set_instance",
            "aws", ["tags."]⟩]) :=
  ((@C10_append_only String Unit []).2.1 (.ok ()) (fun _ => Sample.cfOneStackSet)).2.2 rfl

end Terraformer
